import Mathlib

/-!
Verification of the CARLA walker population manager
(`Source/Carla/AI/WalkerSpawnerBase.cpp`).

The C++ unit is embedded shallowly:

* Walker entities are identified by natural-number handles allocated at
  spawn time (`nextId`).  The Unreal engine surrounding the unit (actor
  validity, controller resolution, stuck reports, spawn outcomes) is an
  explicit per-tick environment `WalkerEnv` of boolean observations.
* `FRandomStream` is an abstract stream `randStream : Nat → Nat` with an
  explicit position; `RandRange(0, n-1)` reads the stream at the current
  position modulo `n` and advances the position, so the number of random
  draws an operation makes equals the distance the position moves.
* `FVector::Size()` (engine code) is abstracted by `size : FVector → ℚ`;
  the unit's own `GetDistance` is `|size (a - b)|` as in the source.
* `TArray::Add` appends; `TArray::RemoveAtSwap` moves the last element
  into the removed slot and pops, embedded as `removeAtSwap`.
* The `check(...)` assertion in `GetRandomSpawnPoint` and any
  out-of-bounds indexing are an error branch: the embedding returns
  `none` there.
* Ghost ledgers `created`, `destroyed` and `everBlackListed` record which
  handles have been created valid, destroyed by this unit, and ever put
  on the black list; they influence no control flow.
-/

namespace Carla

/-- A world location, as the integer-coordinate shadow of `FVector`.
`FVector::Size()` itself is engine code and is kept abstract in `Config`. -/
structure FVector where
  x : Int
  y : Int
  z : Int
deriving DecidableEq

/-- Componentwise vector subtraction, `Location0 - Location1`. -/
def FVector.sub (a b : FVector) : FVector :=
  { x := a.x - b.x, y := a.y - b.y, z := a.z - b.z }

/-- A walker spawn point (`AWalkerSpawnPointBase`): only its actor location is
relevant to this unit (the full transform is merely forwarded to the external
`SpawnWalker` call). -/
structure SpawnPoint where
  location : FVector
deriving DecidableEq

/-- Configuration of the spawner plus the two pieces of engine functionality the
unit calls through pure interfaces: the seeded random stream and the vector
norm.  `bUseFixedSeed` and `seed` only select how the engine seeds the stream;
`randStream` is the resulting stream of draws.  `bSpawnWalkersDefault` is the
value of the `bSpawnWalkers` field before `BeginPlay` runs; the header holding
its default initializer is not part of the sources, and the spec treats
spawning as enabled unless startup disables it. -/
structure Config where
  numberOfWalkers : Int
  bUseFixedSeed : Bool
  seed : Int
  minimumWalkDistance : ℚ
  bSpawnWalkersDefault : Bool
  randStream : Nat → Nat
  size : FVector → ℚ

/-- Per-tick observations of the external engine state, indexed by walker
handle: whether the stored actor pointer reads null, whether the actor is
pending kill, whether `Cast<AWalkerAIController>(GetController())` succeeds,
what `WalkerIsStuck()` reports, the actor's current location, and the outcome
of the two external calls of a spawn attempt (`SpawnWalker` producing a valid
character, and default-controller creation succeeding). -/
structure WalkerEnv where
  isNull : Nat → Bool
  pendingKill : Nat → Bool
  hasController : Nat → Bool
  stuck : Nat → Bool
  loc : Nat → FVector
  spawnOk : Nat → Bool
  attachOk : Nat → Bool

/-- Observable events of one `Tick`: a spawn attempt at a chosen point, the
black-list check of a walker, and the active-set check of a walker. -/
inductive Event where
  | spawnAttempt (p : SpawnPoint)
  | blackListCheck (w : Nat)
  | activeCheck (w : Nat)
deriving DecidableEq

/-- The state of `AWalkerSpawnerBase`: the spawn-point registry, the two walker
arrays, the spawning flag and target, the shared round-robin cursor, the
random-stream position, the fresh-handle counter, and three ghost ledgers
(`created`, `destroyed`, `everBlackListed`) that record history without
affecting behaviour. -/
structure SpawnerState where
  spawnPoints : List SpawnPoint
  walkers : List Nat
  walkersBlackList : List Nat
  bSpawnWalkers : Bool
  numberOfWalkers : Int
  currentIndexToCheck : Nat
  streamPos : Nat
  nextId : Nat
  created : List Nat
  destroyed : List Nat
  everBlackListed : List Nat
deriving DecidableEq

/-- Embeds `TArray::RemoveAtSwap(Index)`: overwrite slot `i` with the last element,
then drop the last slot.  (On an empty array nothing happens; the source never
calls it that way.) -/
def removeAtSwap (l : List Nat) (i : Nat) : List Nat :=
  match l.getLast? with
  | none => l
  | some a => (l.set i a).dropLast

/-- Embeds `WalkerIsValid`: the stored pointer is non-null and not pending kill. -/
def WalkerIsValid (env : WalkerEnv) (w : Nat) : Bool :=
  !env.isNull w && !env.pendingKill w

/-- Embeds `GetController`: resolvable exactly when the walker is valid and the cast
of its controller succeeds; the embedding only needs whether it is null. -/
def GetControllerOk (env : WalkerEnv) (w : Nat) : Bool :=
  WalkerIsValid env w && env.hasController w

/-- Embeds `GetDistance`: the absolute value of the engine norm of the componentwise difference. -/
def GetDistance (cfg : Config) (l0 l1 : FVector) : ℚ :=
  |cfg.size (FVector.sub l0 l1)|

/-- Embeds `RandomStream.RandRange(0, n - 1)`: the draw at position `pos`, reduced into
`[0, n)`. -/
def RandRange (cfg : Config) (pos n : Nat) : Nat :=
  cfg.randStream pos % n

/-- Modelled from the spec: `GetCurrentNumberOfWalkers` is declared in the
header `WalkerSpawnerBase.h`, which is not among the sources; the spec's
per-tick rule "if spawning enabled and `activeCount < target`, attempt exactly
one spawn" identifies it with the size of the Active Set. -/
def GetCurrentNumberOfWalkers (s : SpawnerState) : Nat :=
  s.walkers.length

/-- Embeds `GetRandomSpawnPoint`: asserts the registry is non-empty (`check`), then
returns a uniformly drawn registry entry, consuming one random draw.  `none` is
the assertion-failure / out-of-bounds error branch. -/
def GetRandomSpawnPoint (cfg : Config) (s : SpawnerState) :
    Option (SpawnPoint × SpawnerState) :=
  if s.spawnPoints.length = 0 then
    none
  else
    match s.spawnPoints[RandRange cfg s.streamPos s.spawnPoints.length]? with
    | none => none
    | some p => some (p, { s with streamPos := s.streamPos + 1 })

/-- Embeds `TryGetValidDestination(Origin, Destination)`: one random registry draw;
the drawn point's location is the destination, accepted iff its distance from
the origin is at least `MinimumWalkDistance`. -/
def TryGetValidDestination (cfg : Config) (s : SpawnerState) (origin : FVector) :
    Option (Bool × FVector × SpawnerState) :=
  match GetRandomSpawnPoint cfg s with
  | none => none
  | some (destinationPoint, s1) =>
    some (decide (cfg.minimumWalkDistance ≤ GetDistance cfg origin destinationPoint.location),
      destinationPoint.location, s1)

/-- Embeds `TryToSpawnWalkerAt(SpawnPoint)`: find a destination; spawn the walker
(fresh handle `s.nextId`); attach the AI controller; on success add the walker
to the active array and send it to the destination.  Each failure returns
`false` having unwound that attempt (`Walker->Destroy()` on attach failure). -/
def TryToSpawnWalkerAt (cfg : Config) (env : WalkerEnv) (s : SpawnerState)
    (spawnPoint : SpawnPoint) : Option (Bool × SpawnerState) :=
  match TryGetValidDestination cfg s spawnPoint.location with
  | none => none
  | some (ok, _destination, s1) =>
    if !ok then
      some (false, s1)
    else
      let walker := s1.nextId
      let s2 := { s1 with nextId := s1.nextId + 1 }
      if !env.spawnOk walker then
        some (false, s2)
      else
        let s3 := { s2 with created := walker :: s2.created }
        if env.attachOk walker then
          some (true, { s3 with walkers := s3.walkers ++ [walker] })
        else
          some (false, { s3 with destroyed := walker :: s3.destroyed })

/-- Embeds `TrySetDestination(Walker)`: resolve the controller, draw one candidate
destination from the walker's current location, and command the move if the
candidate is acceptable. -/
def TrySetDestination (cfg : Config) (env : WalkerEnv) (s : SpawnerState)
    (walker : Nat) : Option (Bool × SpawnerState) :=
  if !(GetControllerOk env walker) then
    some (false, s)
  else
    match TryGetValidDestination cfg s (env.loc walker) with
    | none => none
    | some (ok, _destination, s1) =>
      if !ok then some (false, s1) else some (true, s1)

/-- Embeds `SetNumberOfWalkers(Count)`: a positive count enables spawning and becomes
the target; otherwise spawning is disabled. -/
def SetNumberOfWalkers (s : SpawnerState) (count : Int) : SpawnerState :=
  if 0 < count then
    { s with bSpawnWalkers := true, numberOfWalkers := count }
  else
    { s with bSpawnWalkers := false }

/-- First block of `Tick`: if spawning is enabled and the walker count is below
target, try to spawn one walker at a random spawn point. -/
def spawnPhase (cfg : Config) (env : WalkerEnv) (s : SpawnerState) :
    Option (SpawnerState × List Event) :=
  if s.bSpawnWalkers ∧ (GetCurrentNumberOfWalkers s : Int) < s.numberOfWalkers then
    match GetRandomSpawnPoint cfg s with
    | none => none
    | some (p, s1) =>
      match TryToSpawnWalkerAt cfg env s1 p with
      | none => none
      | some (_, s2) => some (s2, [Event.spawnAttempt p])
  else
    some (s, [])

/-- Second block of `Tick`: when the black list is non-empty, advance the
shared cursor, pick that black-listed walker, and if its controller is gone or
it is still stuck, remove it (swap-pop) and destroy the actor if the pointer is
not null. -/
def blackListPhase (env : WalkerEnv) (s : SpawnerState) :
    Option (SpawnerState × List Event) :=
  if 0 < s.walkersBlackList.length then
    match s.walkersBlackList[(s.currentIndexToCheck + 1) % s.walkersBlackList.length]? with
    | none => none
    | some walker =>
      if !(GetControllerOk env walker) || env.stuck walker then
        if !(env.isNull walker) then
          some ({ s with
              currentIndexToCheck := s.currentIndexToCheck + 1,
              walkersBlackList := removeAtSwap s.walkersBlackList
                ((s.currentIndexToCheck + 1) % s.walkersBlackList.length),
              destroyed := walker :: s.destroyed },
            [Event.blackListCheck walker])
        else
          some ({ s with
              currentIndexToCheck := s.currentIndexToCheck + 1,
              walkersBlackList := removeAtSwap s.walkersBlackList
                ((s.currentIndexToCheck + 1) % s.walkersBlackList.length) },
            [Event.blackListCheck walker])
      else
        some ({ s with currentIndexToCheck := s.currentIndexToCheck + 1 },
          [Event.blackListCheck walker])
  else
    some (s, [])

/-- Third block of `Tick`: when the active array is non-empty, advance the
shared cursor, pick that walker; if its controller is unresolvable, remove and
destroy it; else if it is stuck, attempt one destination reassignment, add it
to the black list and remove it from the active array. -/
def activePhase (cfg : Config) (env : WalkerEnv) (s : SpawnerState) :
    Option (SpawnerState × List Event) :=
  if 0 < s.walkers.length then
    match s.walkers[(s.currentIndexToCheck + 1) % s.walkers.length]? with
    | none => none
    | some walker =>
      if !(GetControllerOk env walker) then
        if !(env.isNull walker) then
          some ({ s with
              currentIndexToCheck := s.currentIndexToCheck + 1,
              walkers := removeAtSwap s.walkers
                ((s.currentIndexToCheck + 1) % s.walkers.length),
              destroyed := walker :: s.destroyed },
            [Event.activeCheck walker])
        else
          some ({ s with
              currentIndexToCheck := s.currentIndexToCheck + 1,
              walkers := removeAtSwap s.walkers
                ((s.currentIndexToCheck + 1) % s.walkers.length) },
            [Event.activeCheck walker])
      else if env.stuck walker then
        match TrySetDestination cfg env
            { s with currentIndexToCheck := s.currentIndexToCheck + 1 } walker with
        | none => none
        | some (_, s1) =>
          some ({ s1 with
              walkersBlackList := s1.walkersBlackList ++ [walker],
              everBlackListed := walker :: s1.everBlackListed,
              walkers := removeAtSwap s1.walkers
                ((s.currentIndexToCheck + 1) % s.walkers.length) },
            [Event.activeCheck walker])
      else
        some ({ s with currentIndexToCheck := s.currentIndexToCheck + 1 },
          [Event.activeCheck walker])
  else
    some (s, [])

/-- Embeds `Tick(DeltaTime)`: the three blocks in source order — spawn top-up, then
the black-list check, then the active-set check — with the emitted events
concatenated. -/
def Tick (cfg : Config) (env : WalkerEnv) (s : SpawnerState) :
    Option (SpawnerState × List Event) :=
  match spawnPhase cfg env s with
  | none => none
  | some (s1, e1) =>
    match blackListPhase env s1 with
    | none => none
    | some (s2, e2) =>
      match activePhase cfg env s2 with
      | none => none
      | some (s3, e3) => some (s3, e1 ++ e2 ++ e3)

/-- The startup bulk-spawn loop of `BeginPlay`:
`for i in 0..NumberOfWalkers-1, TryToSpawnWalkerAt(BeginSpawnPoints[i mod Num])`,
expressed with an explicit remaining-iteration count. -/
def batchSpawn (cfg : Config) (env : WalkerEnv) (beginSpawnPoints : List SpawnPoint) :
    Nat → Nat → SpawnerState → Option SpawnerState
  | _, 0, s => some s
  | i, Nat.succ k, s =>
    match beginSpawnPoints[i % beginSpawnPoints.length]? with
    | none => none
    | some p =>
      match TryToSpawnWalkerAt cfg env s p with
      | none => none
      | some (_, s1) => batchSpawn cfg env beginSpawnPoints (i + 1) k s1

/-- The ongoing spawn-point registry discovered at startup: `world` lists every
`AWalkerSpawnPointBase` in discovery order, flagged `true` when it is an
ongoing-use `AWalkerSpawnPoint`; the registry keeps the flagged ones. -/
def discoveredSpawnPoints (world : List (SpawnPoint × Bool)) : List SpawnPoint :=
  (world.filter (fun q => q.2)).map Prod.fst

/-- The spawner state right after `BeginPlay`'s discovery loop, before the bulk
spawn: the target clamped to be non-negative, the registry filled in, and
spawning disabled when fewer than two ongoing points were found (otherwise it
keeps its pre-`BeginPlay` value). -/
def initialState (cfg : Config) (world : List (SpawnPoint × Bool)) : SpawnerState :=
  { spawnPoints := discoveredSpawnPoints world
    walkers := []
    walkersBlackList := []
    bSpawnWalkers :=
      if (discoveredSpawnPoints world).length < 2 then false else cfg.bSpawnWalkersDefault
    numberOfWalkers := max 0 cfg.numberOfWalkers
    currentIndexToCheck := 0
    streamPos := 0
    nextId := 0
    created := []
    destroyed := []
    everBlackListed := [] }

/-- Embeds `BeginPlay`: clamp the target, seed the stream, discover the spawn points,
disable spawning when fewer than two ongoing points exist, and perform the
startup bulk spawn over all discovered begin points. -/
def BeginPlay (cfg : Config) (env : WalkerEnv) (world : List (SpawnPoint × Bool)) :
    Option SpawnerState :=
  if (initialState cfg world).bSpawnWalkers then
    batchSpawn cfg env (world.map Prod.fst) 0 (max 0 cfg.numberOfWalkers).toNat
      (initialState cfg world)
  else
    some (initialState cfg world)

/-- The operations the host can perform on a running spawner after startup. -/
inductive Op where
  | opTick (env : WalkerEnv)
  | opSetNumberOfWalkers (count : Int)

/-- Apply one operation; `none` is the error branch propagated from `Tick`. -/
def applyOp (cfg : Config) (s : SpawnerState) : Op → Option SpawnerState
  | Op.opTick env => (Tick cfg env s).map Prod.fst
  | Op.opSetNumberOfWalkers count => some (SetNumberOfWalkers s count)

/-- Run a sequence of operations from a state. -/
def run (cfg : Config) (s : SpawnerState) : List Op → Option SpawnerState
  | [] => some s
  | op :: ops =>
    match applyOp cfg s op with
    | none => none
    | some s1 => run cfg s1 ops

/-- How many spawn attempts a trace of events records. -/
def spawnAttemptCount (tr : List Event) : Nat :=
  tr.countP (fun e =>
    match e with
    | Event.spawnAttempt _ => true
    | _ => false)

/-- The kind of an event, numbered in the order the source's `Tick` can emit
them: spawn attempt, black-list check, active-set check. -/
def eventKind : Event → Nat
  | Event.spawnAttempt _ => 0
  | Event.blackListCheck _ => 1
  | Event.activeCheck _ => 2

/-! Section: Concrete fixtures used by witnesses and counterexamples -/

/-- The origin location. -/
def vA : FVector := { x := 0, y := 0, z := 0 }

/-- A location away from the origin. -/
def vB : FVector := { x := 300, y := 0, z := 0 }

/-- A spawn point at `vA`. -/
def pA : SpawnPoint := { location := vA }

/-- A spawn point at `vB`. -/
def pB : SpawnPoint := { location := vB }

/-- A base configuration: zero target, fixed seed, minimum walk distance `1`, a
constant random stream and a norm that reports every displacement as `100`. -/
def baseCfg : Config :=
  { numberOfWalkers := 0, bUseFixedSeed := true, seed := 0, minimumWalkDistance := 1,
    bSpawnWalkersDefault := true, randStream := fun _ => 0, size := fun _ => 100 }

/-- The base configuration with target population `1`. -/
def cfgOne : Config := { baseCfg with numberOfWalkers := 1 }

/-- The base configuration with target population `2`. -/
def cfgTwo : Config := { baseCfg with numberOfWalkers := 2 }

/-- A benign engine environment: every walker is alive, has a controller, and
is never stuck; every spawn and controller attachment succeeds. -/
def envNominal : WalkerEnv :=
  { isNull := fun _ => false, pendingKill := fun _ => false, hasController := fun _ => true,
    stuck := fun _ => false, loc := fun _ => vA, spawnOk := fun _ => true,
    attachOk := fun _ => true }

/-- An environment in which every stored walker pointer reads null (the engine
destroyed the actors externally). -/
def envKill : WalkerEnv := { envNominal with isNull := fun _ => true }

/-- An environment in which exactly walker `1` reports stuck. -/
def envStuckOne : WalkerEnv := { envNominal with stuck := fun w => w == 1 }

/-- An environment in which walker `0` reports stuck. -/
def envStuckZero : WalkerEnv := { envNominal with stuck := fun w => w == 0 }

/-- An environment in which controller attachment always fails. -/
def envAttachFail : WalkerEnv := { envNominal with attachOk := fun _ => false }

/-- A world with one ongoing spawn point. -/
def worldOne : List (SpawnPoint × Bool) := [(pA, true)]

/-- A world with two ongoing spawn points. -/
def worldTwo : List (SpawnPoint × Bool) := [(pA, true), (pB, true)]

/-- The state `BeginPlay cfgOne envNominal worldTwo` produces: walker `0` was
spawned at startup. -/
def sOne : SpawnerState :=
  { spawnPoints := [pA, pB], walkers := [0], walkersBlackList := [],
    bSpawnWalkers := true, numberOfWalkers := 1, currentIndexToCheck := 0,
    streamPos := 1, nextId := 1, created := [0], destroyed := [],
    everBlackListed := [] }

/-- The state `sOne` after one nominal tick (only the active-set check ran). -/
def sOneTicked : SpawnerState := { sOne with currentIndexToCheck := 1 }

/-- The state `BeginPlay cfgTwo envNominal worldTwo` produces: walkers `0` and
`1` were spawned at startup. -/
def sTwoStart : SpawnerState :=
  { spawnPoints := [pA, pB], walkers := [0, 1], walkersBlackList := [],
    bSpawnWalkers := true, numberOfWalkers := 2, currentIndexToCheck := 0,
    streamPos := 2, nextId := 2, created := [1, 0], destroyed := [],
    everBlackListed := [] }

/-- The result of a spawn attempt from the pristine two-point startup state in
which controller attachment failed: entity `0` was created and destroyed. -/
def sAttachFailRes : SpawnerState :=
  { initialState cfgOne worldTwo with
      streamPos := 1, nextId := 1, created := [0], destroyed := [0] }

/-- The state after `sTwoStart` ticks once under `envStuckOne`: walker `1`
reported stuck and was quarantined. -/
def sTwoStuck : SpawnerState :=
  { spawnPoints := [pA, pB], walkers := [0], walkersBlackList := [1],
    bSpawnWalkers := true, numberOfWalkers := 2, currentIndexToCheck := 1,
    streamPos := 3, nextId := 2, created := [1, 0], destroyed := [],
    everBlackListed := [1] }

/-! Section: The structural invariant of reachable states -/

/-- Structural invariant: the two walker arrays hold no duplicates, are
disjoint, active walkers were never black-listed, black-listed walkers are
recorded in the `everBlackListed` ledger, and every recorded handle is below
the fresh-handle counter. -/
structure Inv (s : SpawnerState) : Prop where
  nodupW : s.walkers.Nodup
  nodupB : s.walkersBlackList.Nodup
  disjWB : ∀ w ∈ s.walkers, w ∉ s.walkersBlackList
  disjWE : ∀ w ∈ s.walkers, w ∉ s.everBlackListed
  subBE : ∀ w ∈ s.walkersBlackList, w ∈ s.everBlackListed
  ltW : ∀ w ∈ s.walkers, w < s.nextId
  ltB : ∀ w ∈ s.walkersBlackList, w < s.nextId
  ltD : ∀ w ∈ s.destroyed, w < s.nextId
  ltE : ∀ w ∈ s.everBlackListed, w < s.nextId
  ltC : ∀ w ∈ s.created, w < s.nextId

/-- The agent `w` is in exactly one of the three states
{Active-Set member, Blacklist-Set member, destroyed}. -/
def ExactlyOne (s : SpawnerState) (w : Nat) : Prop :=
  (w ∈ s.walkers ∧ w ∉ s.walkersBlackList ∧ w ∉ s.destroyed) ∨
  (w ∉ s.walkers ∧ w ∈ s.walkersBlackList ∧ w ∉ s.destroyed) ∨
  (w ∉ s.walkers ∧ w ∉ s.walkersBlackList ∧ w ∈ s.destroyed)

/-- Every agent the core ever created (valid at birth) is in exactly one of the
three states. -/
def Partition (s : SpawnerState) : Prop :=
  ∀ w ∈ s.created, ExactlyOne s w

/-- Disjointness of the Active Set and Blacklist Set, together with the
exclusive three-state partition — the conjunction claimed by the spec's
exclusivity property. -/
def Exclusivity (s : SpawnerState) : Prop :=
  (∀ w ∈ s.walkers, w ∉ s.walkersBlackList) ∧ Partition s

instance (s : SpawnerState) (w : Nat) : Decidable (ExactlyOne s w) := by
  unfold ExactlyOne
  infer_instance

instance (s : SpawnerState) : Decidable (Partition s) := by
  unfold Partition
  infer_instance

instance (s : SpawnerState) : Decidable (Exclusivity s) := by
  unfold Exclusivity
  infer_instance

/-- No tick operation in the list carries an environment that nulls a walker
handle: the engine never destroys walker entities externally during the run. -/
def TickEnvsNoKill (ops : List Op) : Prop :=
  ∀ op ∈ ops, ∀ env, op = Op.opTick env → ∀ w, env.isNull w = false

/-- No operation in the list is a `SetNumberOfWalkers` call with a positive
count — nothing in the run can re-enable spawning. -/
def NonEnabling (ops : List Op) : Prop :=
  ∀ op ∈ ops, ∀ c, op = Op.opSetNumberOfWalkers c → c ≤ 0

/-! Section: Facts about `removeAtSwap` -/

theorem List.set_self_eq (l : List Nat) (i : Nat) (h : i < l.length) :
    l.set i l[i] = l := by
  apply List.ext_getElem
  · simp
  · intro n h1 h2
    rcases eq_or_ne i n with rfl | hne
    · simp
    · rw [List.getElem_set_ne hne]

theorem removeAtSwap_perm (l : List Nat) (i : Nat) (h : i < l.length) :
    List.Perm (l[i] :: removeAtSwap l i) l := by
  have hne : l ≠ [] := List.ne_nil_of_length_pos (Nat.lt_of_le_of_lt (Nat.zero_le i) h)
  obtain ⟨a, ha⟩ : ∃ a, l.getLast hne = a := ⟨_, rfl⟩
  have hlast : l.getLast? = some a := ha ▸ List.getLast?_eq_getLast_of_ne_nil hne
  have hdecomp : l.dropLast ++ [a] = l := ha ▸ List.dropLast_append_getLast hne
  have hLlen : l.dropLast.length = l.length - 1 := List.length_dropLast l
  simp only [removeAtSwap, hlast]
  rcases Nat.lt_or_ge i (l.length - 1) with hi | hi
  · have hiL : i < l.dropLast.length := by omega
    have hset : l.set i a = l.dropLast.set i a ++ [a] :=
      (congrArg (fun t => t.set i a) hdecomp.symm).trans (List.set_append_left i a hiL)
    have hgetL : l[i] = l.dropLast[i] :=
      (List.getElem_of_eq hdecomp.symm h).trans (List.getElem_append_left hiL)
    rw [hset, List.dropLast_concat, hgetL]
    have hsetT : l.dropLast.set i a =
        l.dropLast.take i ++ a :: l.dropLast.drop (i+1) :=
      List.set_eq_take_cons_drop a hiL
    have hLT : l.dropLast = l.dropLast.take i ++ l.dropLast[i] :: l.dropLast.drop (i+1) := by
      conv_lhs => rw [← List.set_self_eq l.dropLast i hiL]
      exact List.set_eq_take_cons_drop (l.dropLast[i]) hiL
    rw [hsetT]
    conv_rhs => rw [← hdecomp, hLT]
    have p1 : List.Perm (a :: l.dropLast.drop (i+1))
        (l.dropLast.drop (i+1) ++ [a]) :=
      (List.perm_append_singleton _ _).symm
    have p2 := List.Perm.append_left (l.dropLast.take i) p1
    have p3 := List.Perm.cons (l.dropLast[i]) p2
    refine p3.trans ?_
    have hshape : (l.dropLast.take i ++ l.dropLast[i] :: l.dropLast.drop (i+1)) ++ [a]
        = l.dropLast.take i ++ l.dropLast[i] :: (l.dropLast.drop (i+1) ++ [a]) := by
      simp [List.append_assoc]
    rw [hshape]
    exact List.perm_middle.symm
  · have hieq : i = l.length - 1 := by omega
    have hgl : l[i] = a := by
      rw [← ha, List.getLast_eq_getElem l hne]
      congr 1
    have hsetid : l.set i a = l := by
      rw [← hgl]; exact List.set_self_eq l i h
    rw [hsetid, hgl]
    refine (List.perm_append_singleton _ _).symm.trans ?_
    rw [hdecomp]

theorem removeAtSwap_subset (l : List Nat) (i : Nat) (h : i < l.length) :
    ∀ x ∈ removeAtSwap l i, x ∈ l := by
  intro x hx
  exact (removeAtSwap_perm l i h).mem_iff.mp (List.mem_cons_of_mem _ hx)

theorem removeAtSwap_nodup (l : List Nat) (i : Nat) (h : i < l.length)
    (hd : l.Nodup) : (removeAtSwap l i).Nodup := by
  have := ((removeAtSwap_perm l i h).nodup_iff).mpr hd
  exact (List.nodup_cons.mp this).2

theorem getElem_not_mem_removeAtSwap (l : List Nat) (i : Nat) (h : i < l.length)
    (hd : l.Nodup) : l[i] ∉ removeAtSwap l i := by
  have := ((removeAtSwap_perm l i h).nodup_iff).mpr hd
  exact (List.nodup_cons.mp this).1

theorem mem_removeAtSwap_of_ne (l : List Nat) (i : Nat) (h : i < l.length)
    (x : Nat) (hx : x ∈ l) (hne : x ≠ l[i]) : x ∈ removeAtSwap l i := by
  have := (removeAtSwap_perm l i h).mem_iff.mpr hx
  rcases List.mem_cons.mp this with heq | hmem
  · exact absurd heq hne
  · exact hmem

/-! Section: Inversion lemmas characterising each operation's possible outcomes -/

theorem getRandomSpawnPoint_some (cfg : Config) (s : SpawnerState) (p : SpawnPoint)
    (s' : SpawnerState) (h : GetRandomSpawnPoint cfg s = some (p, s')) :
    s' = { s with streamPos := s.streamPos + 1 } ∧
    s.spawnPoints[RandRange cfg s.streamPos s.spawnPoints.length]? = some p := by
  unfold GetRandomSpawnPoint at h
  split at h
  · exact absurd h (by simp)
  · split at h
    · exact absurd h (by simp)
    · rename_i p' hp'
      simp only [Option.some.injEq, Prod.mk.injEq] at h
      exact ⟨h.2.symm, h.1 ▸ hp'⟩

theorem getRandomSpawnPoint_isSome (cfg : Config) (s : SpawnerState)
    (h : 0 < s.spawnPoints.length) : (GetRandomSpawnPoint cfg s).isSome = true := by
  unfold GetRandomSpawnPoint
  rw [if_neg (by omega)]
  have hb : RandRange cfg s.streamPos s.spawnPoints.length < s.spawnPoints.length :=
    Nat.mod_lt _ h
  rw [List.getElem?_eq_getElem hb]
  rfl

theorem tryGetValidDestination_some (cfg : Config) (s : SpawnerState) (origin : FVector)
    (b : Bool) (d : FVector) (s' : SpawnerState)
    (h : TryGetValidDestination cfg s origin = some (b, d, s')) :
    s' = { s with streamPos := s.streamPos + 1 } ∧
    ∃ p, s.spawnPoints[RandRange cfg s.streamPos s.spawnPoints.length]? = some p ∧
      d = p.location ∧
      (b = true ↔ cfg.minimumWalkDistance ≤ GetDistance cfg origin p.location) := by
  unfold TryGetValidDestination at h
  split at h
  · exact absurd h (by simp)
  · rename_i pair p s1 hg
    obtain ⟨hs1, hp⟩ := getRandomSpawnPoint_some cfg s p s1 hg
    simp only [Option.some.injEq, Prod.mk.injEq] at h
    refine ⟨h.2.2.symm.trans hs1, p, hp, h.2.1.symm, ?_⟩
    rw [← h.1]
    simp

theorem tryGetValidDestination_isSome (cfg : Config) (s : SpawnerState) (origin : FVector)
    (h : 0 < s.spawnPoints.length) :
    (TryGetValidDestination cfg s origin).isSome = true := by
  unfold TryGetValidDestination
  have := getRandomSpawnPoint_isSome cfg s h
  rcases hg : GetRandomSpawnPoint cfg s with _ | pair
  · rw [hg] at this
    simp at this
  · rfl

theorem tryToSpawnWalkerAt_eval (cfg : Config) (env : WalkerEnv) (s : SpawnerState)
    (p : SpawnPoint) (ok : Bool) (d : FVector) (s1 : SpawnerState)
    (hg : TryGetValidDestination cfg s p.location = some (ok, d, s1)) :
    TryToSpawnWalkerAt cfg env s p =
      if !ok then
        some (false, s1)
      else if !env.spawnOk s1.nextId then
        some (false, { s1 with nextId := s1.nextId + 1 })
      else if env.attachOk s1.nextId then
        some (true, { s1 with
            nextId := s1.nextId + 1, created := s1.nextId :: s1.created,
            walkers := s1.walkers ++ [s1.nextId] })
      else
        some (false, { s1 with
            nextId := s1.nextId + 1, created := s1.nextId :: s1.created,
            destroyed := s1.nextId :: s1.destroyed }) := by
  unfold TryToSpawnWalkerAt
  rw [hg]

theorem tryToSpawnWalkerAt_cases (cfg : Config) (env : WalkerEnv) (s : SpawnerState)
    (p : SpawnPoint) (b : Bool) (s' : SpawnerState)
    (h : TryToSpawnWalkerAt cfg env s p = some (b, s')) :
    (b = false ∧ s' = { s with streamPos := s.streamPos + 1 }) ∨
    (b = false ∧ s' = { s with streamPos := s.streamPos + 1, nextId := s.nextId + 1 }) ∨
    (b = false ∧ env.attachOk s.nextId = false ∧
      s' = { s with
          streamPos := s.streamPos + 1, nextId := s.nextId + 1,
          created := s.nextId :: s.created, destroyed := s.nextId :: s.destroyed }) ∨
    (b = true ∧ env.attachOk s.nextId = true ∧
      s' = { s with
          streamPos := s.streamPos + 1, nextId := s.nextId + 1,
          created := s.nextId :: s.created, walkers := s.walkers ++ [s.nextId] }) := by
  rcases hg : TryGetValidDestination cfg s p.location with _ | ⟨ok, d, s1⟩
  · unfold TryToSpawnWalkerAt at h
    rw [hg] at h
    exact absurd h (by simp)
  · obtain ⟨hs1, -⟩ := tryGetValidDestination_some cfg s p.location ok d s1 hg
    subst hs1
    rw [tryToSpawnWalkerAt_eval cfg env s p ok d _ hg] at h
    cases ok
    · rw [if_pos (by simp)] at h
      simp only [Option.some.injEq, Prod.mk.injEq] at h
      exact Or.inl ⟨h.1.symm, h.2.symm⟩
    · rw [if_neg (by simp)] at h
      rcases hspawn : env.spawnOk s.nextId with _ | _
      · rw [if_pos (by simp [hspawn])] at h
        simp only [Option.some.injEq, Prod.mk.injEq] at h
        exact Or.inr (Or.inl ⟨h.1.symm, h.2.symm⟩)
      · rw [if_neg (by simp [hspawn])] at h
        rcases hattach : env.attachOk s.nextId with _ | _
        · rw [if_neg (by simp [hattach])] at h
          simp only [Option.some.injEq, Prod.mk.injEq] at h
          exact Or.inr (Or.inr (Or.inl ⟨h.1.symm, rfl, h.2.symm⟩))
        · rw [if_pos hattach] at h
          simp only [Option.some.injEq, Prod.mk.injEq] at h
          exact Or.inr (Or.inr (Or.inr ⟨h.1.symm, rfl, h.2.symm⟩))

theorem tryToSpawnWalkerAt_isSome (cfg : Config) (env : WalkerEnv) (s : SpawnerState)
    (p : SpawnPoint) (h : 0 < s.spawnPoints.length) :
    (TryToSpawnWalkerAt cfg env s p).isSome = true := by
  unfold TryToSpawnWalkerAt
  have := tryGetValidDestination_isSome cfg s p.location h
  rcases hg : TryGetValidDestination cfg s p.location with _ | triple
  · rw [hg] at this
    simp at this
  · obtain ⟨ok, d, s1⟩ := triple
    simp only
    split
    · rfl
    · split
      · rfl
      · split
        · rfl
        · rfl

theorem trySetDestination_some (cfg : Config) (env : WalkerEnv) (s : SpawnerState)
    (w : Nat) (b : Bool) (s' : SpawnerState)
    (h : TrySetDestination cfg env s w = some (b, s')) :
    s' = s ∨ s' = { s with streamPos := s.streamPos + 1 } := by
  unfold TrySetDestination at h
  split at h
  · simp only [Option.some.injEq, Prod.mk.injEq] at h
    exact Or.inl h.2.symm
  · split at h
    · exact absurd h (by simp)
    · rename_i triple ok d s1 hg
      obtain ⟨hs1, -⟩ := tryGetValidDestination_some cfg s _ ok d s1 hg
      subst hs1
      split at h
      · simp only [Option.some.injEq, Prod.mk.injEq] at h
        exact Or.inr h.2.symm
      · simp only [Option.some.injEq, Prod.mk.injEq] at h
        exact Or.inr h.2.symm

theorem trySetDestination_ctrlOk (cfg : Config) (env : WalkerEnv) (s : SpawnerState)
    (w : Nat) (hc : GetControllerOk env w = true) (h : 0 < s.spawnPoints.length) :
    ∃ b, TrySetDestination cfg env s w =
      some (b, { s with streamPos := s.streamPos + 1 }) := by
  unfold TrySetDestination
  rw [hc]
  simp only [Bool.not_true, Bool.false_eq_true, if_false]
  have := tryGetValidDestination_isSome cfg s (env.loc w) h
  rcases hg : TryGetValidDestination cfg s (env.loc w) with _ | triple
  · rw [hg] at this
    simp at this
  · obtain ⟨ok, d, s1⟩ := triple
    obtain ⟨hs1, -⟩ := tryGetValidDestination_some cfg s _ ok d s1 hg
    subst hs1
    by_cases hok : ok = true
    · subst hok
      exact ⟨true, rfl⟩
    · rw [Bool.eq_false_iff.mpr hok]
      exact ⟨false, rfl⟩

theorem trySetDestination_isSome (cfg : Config) (env : WalkerEnv) (s : SpawnerState)
    (w : Nat) (h : 0 < s.spawnPoints.length) :
    (TrySetDestination cfg env s w).isSome = true := by
  by_cases hc : GetControllerOk env w = true
  · obtain ⟨b, hb⟩ := trySetDestination_ctrlOk cfg env s w hc h
    rw [hb]
    rfl
  · unfold TrySetDestination
    rw [Bool.eq_false_iff.mpr hc]
    rfl

theorem spawnPhase_cases (cfg : Config) (env : WalkerEnv) (s s' : SpawnerState)
    (tr : List Event) (h : spawnPhase cfg env s = some (s', tr)) :
    (¬ (s.bSpawnWalkers = true ∧ (GetCurrentNumberOfWalkers s : Int) < s.numberOfWalkers) ∧
      s' = s ∧ tr = []) ∨
    ((s.bSpawnWalkers = true ∧ (GetCurrentNumberOfWalkers s : Int) < s.numberOfWalkers) ∧
      ∃ p s1 b, GetRandomSpawnPoint cfg s = some (p, s1) ∧
        TryToSpawnWalkerAt cfg env s1 p = some (b, s') ∧
        tr = [Event.spawnAttempt p]) := by
  unfold spawnPhase at h
  split at h
  · rename_i hcond
    split at h
    · exact absurd h (by simp)
    · rename_i pair p s1 hg
      split at h
      · exact absurd h (by simp)
      · rename_i pair2 b s2 ht
        simp only [Option.some.injEq, Prod.mk.injEq] at h
        exact Or.inr ⟨hcond, p, s1, b, hg, h.1 ▸ ht, h.2.symm⟩
  · rename_i hcond
    simp only [Option.some.injEq, Prod.mk.injEq] at h
    exact Or.inl ⟨hcond, h.1.symm, h.2.symm⟩

theorem spawnPhase_isSome (cfg : Config) (env : WalkerEnv) (s : SpawnerState)
    (hsp : 0 < s.spawnPoints.length) : (spawnPhase cfg env s).isSome = true := by
  unfold spawnPhase
  split
  · have h1 := getRandomSpawnPoint_isSome cfg s hsp
    rcases hg : GetRandomSpawnPoint cfg s with _ | ⟨p, s1⟩
    · rw [hg] at h1
      simp at h1
    · obtain ⟨hs1, -⟩ := getRandomSpawnPoint_some cfg s p s1 hg
      have hsp1 : 0 < s1.spawnPoints.length := by rw [hs1]; exact hsp
      have h2 := tryToSpawnWalkerAt_isSome cfg env s1 p hsp1
      rcases ht : TryToSpawnWalkerAt cfg env s1 p with _ | ⟨b, s2⟩
      · rw [ht] at h2
        simp at h2
      · dsimp only
        rw [ht]
        rfl
  · rfl

theorem blackListPhase_cases (env : WalkerEnv) (s s' : SpawnerState)
    (tr : List Event) (h : blackListPhase env s = some (s', tr)) :
    (¬ 0 < s.walkersBlackList.length ∧ s' = s ∧ tr = []) ∨
    (0 < s.walkersBlackList.length ∧
      ∃ walker,
        s.walkersBlackList[(s.currentIndexToCheck + 1) % s.walkersBlackList.length]?
          = some walker ∧
        tr = [Event.blackListCheck walker] ∧
        (((!(GetControllerOk env walker) || env.stuck walker) = true ∧
            env.isNull walker = false ∧
            s' = { s with
                currentIndexToCheck := s.currentIndexToCheck + 1,
                walkersBlackList := removeAtSwap s.walkersBlackList
                  ((s.currentIndexToCheck + 1) % s.walkersBlackList.length),
                destroyed := walker :: s.destroyed }) ∨
         ((!(GetControllerOk env walker) || env.stuck walker) = true ∧
            env.isNull walker = true ∧
            s' = { s with
                currentIndexToCheck := s.currentIndexToCheck + 1,
                walkersBlackList := removeAtSwap s.walkersBlackList
                  ((s.currentIndexToCheck + 1) % s.walkersBlackList.length) }) ∨
         ((!(GetControllerOk env walker) || env.stuck walker) = false ∧
            s' = { s with currentIndexToCheck := s.currentIndexToCheck + 1 }))) := by
  unfold blackListPhase at h
  split at h
  · rename_i hlen
    split at h
    · exact absurd h (by simp)
    · rename_i walker hw
      split at h
      · rename_i hcond
        split at h
        · rename_i hnull
          simp only [Option.some.injEq, Prod.mk.injEq] at h
          exact Or.inr ⟨hlen, walker, hw, h.2.symm,
            Or.inl ⟨hcond, by simpa using hnull, h.1.symm⟩⟩
        · rename_i hnull
          simp only [Option.some.injEq, Prod.mk.injEq] at h
          exact Or.inr ⟨hlen, walker, hw, h.2.symm,
            Or.inr (Or.inl ⟨hcond, by simpa using hnull, h.1.symm⟩)⟩
      · rename_i hcond
        simp only [Option.some.injEq, Prod.mk.injEq] at h
        exact Or.inr ⟨hlen, walker, hw, h.2.symm,
          Or.inr (Or.inr ⟨by simpa using hcond, h.1.symm⟩)⟩
  · rename_i hlen
    simp only [Option.some.injEq, Prod.mk.injEq] at h
    exact Or.inl ⟨hlen, h.1.symm, h.2.symm⟩

theorem blackListPhase_isSome (env : WalkerEnv) (s : SpawnerState) :
    (blackListPhase env s).isSome = true := by
  unfold blackListPhase
  split
  · rename_i hlen
    rw [List.getElem?_eq_getElem (Nat.mod_lt _ hlen)]
    dsimp only
    split
    · split
      · rfl
      · rfl
    · rfl
  · rfl

theorem activePhase_cases (cfg : Config) (env : WalkerEnv) (s s' : SpawnerState)
    (tr : List Event) (h : activePhase cfg env s = some (s', tr)) :
    (¬ 0 < s.walkers.length ∧ s' = s ∧ tr = []) ∨
    (0 < s.walkers.length ∧
      ∃ walker,
        s.walkers[(s.currentIndexToCheck + 1) % s.walkers.length]? = some walker ∧
        tr = [Event.activeCheck walker] ∧
        ((GetControllerOk env walker = false ∧ env.isNull walker = false ∧
            s' = { s with
                currentIndexToCheck := s.currentIndexToCheck + 1,
                walkers := removeAtSwap s.walkers
                  ((s.currentIndexToCheck + 1) % s.walkers.length),
                destroyed := walker :: s.destroyed }) ∨
         (GetControllerOk env walker = false ∧ env.isNull walker = true ∧
            s' = { s with
                currentIndexToCheck := s.currentIndexToCheck + 1,
                walkers := removeAtSwap s.walkers
                  ((s.currentIndexToCheck + 1) % s.walkers.length) }) ∨
         (GetControllerOk env walker = true ∧ env.stuck walker = true ∧
            (s' = { s with
                currentIndexToCheck := s.currentIndexToCheck + 1,
                walkersBlackList := s.walkersBlackList ++ [walker],
                everBlackListed := walker :: s.everBlackListed,
                walkers := removeAtSwap s.walkers
                  ((s.currentIndexToCheck + 1) % s.walkers.length) } ∨
             s' = { s with
                currentIndexToCheck := s.currentIndexToCheck + 1,
                streamPos := s.streamPos + 1,
                walkersBlackList := s.walkersBlackList ++ [walker],
                everBlackListed := walker :: s.everBlackListed,
                walkers := removeAtSwap s.walkers
                  ((s.currentIndexToCheck + 1) % s.walkers.length) })) ∨
         (GetControllerOk env walker = true ∧ env.stuck walker = false ∧
            s' = { s with currentIndexToCheck := s.currentIndexToCheck + 1 }))) := by
  unfold activePhase at h
  split at h
  · rename_i hlen
    split at h
    · exact absurd h (by simp)
    · rename_i walker hw
      split at h
      · rename_i hctrl
        split at h
        · rename_i hnull
          simp only [Option.some.injEq, Prod.mk.injEq] at h
          exact Or.inr ⟨hlen, walker, hw, h.2.symm,
            Or.inl ⟨by simpa using hctrl, by simpa using hnull, h.1.symm⟩⟩
        · rename_i hnull
          simp only [Option.some.injEq, Prod.mk.injEq] at h
          exact Or.inr ⟨hlen, walker, hw, h.2.symm,
            Or.inr (Or.inl ⟨by simpa using hctrl, by simpa using hnull, h.1.symm⟩)⟩
      · rename_i hctrl
        split at h
        · rename_i hstuck
          split at h
          · exact absurd h (by simp)
          · rename_i pair b s1 ht
            have hs1 := trySetDestination_some cfg env _ walker b s1 ht
            simp only [Option.some.injEq, Prod.mk.injEq] at h
            rcases hs1 with hs1 | hs1
            · refine Or.inr ⟨hlen, walker, hw, h.2.symm,
                Or.inr (Or.inr (Or.inl ⟨by simpa using hctrl, hstuck, Or.inl ?_⟩))⟩
              rw [← h.1, hs1]
            · refine Or.inr ⟨hlen, walker, hw, h.2.symm,
                Or.inr (Or.inr (Or.inl ⟨by simpa using hctrl, hstuck, Or.inr ?_⟩))⟩
              rw [← h.1, hs1]
        · rename_i hstuck
          simp only [Option.some.injEq, Prod.mk.injEq] at h
          exact Or.inr ⟨hlen, walker, hw, h.2.symm,
            Or.inr (Or.inr (Or.inr ⟨by simpa using hctrl, by simpa using hstuck, h.1.symm⟩))⟩
  · rename_i hlen
    simp only [Option.some.injEq, Prod.mk.injEq] at h
    exact Or.inl ⟨hlen, h.1.symm, h.2.symm⟩

theorem activePhase_isSome (cfg : Config) (env : WalkerEnv) (s : SpawnerState)
    (hsp : 0 < s.spawnPoints.length) : (activePhase cfg env s).isSome = true := by
  unfold activePhase
  split
  · rename_i hlen
    have hidx : (s.currentIndexToCheck + 1) % s.walkers.length < s.walkers.length :=
      Nat.mod_lt _ hlen
    rw [List.getElem?_eq_getElem hidx]
    dsimp only
    split
    · split
      · rfl
      · rfl
    · split
      · have h2 := trySetDestination_isSome cfg env
          { s with currentIndexToCheck := s.currentIndexToCheck + 1 }
          (s.walkers.get ⟨(s.currentIndexToCheck + 1) % s.walkers.length, hidx⟩) hsp
        rw [List.get_eq_getElem] at h2
        split
        · rename_i heq
          rw [heq] at h2
          simp at h2
        · rfl
      · rfl
  · rfl

/-! Section: `Tick` decomposition and frame lemmas -/

theorem tick_decompose (cfg : Config) (env : WalkerEnv) (s s' : SpawnerState)
    (tr : List Event) (h : Tick cfg env s = some (s', tr)) :
    ∃ s1 e1 s2 e2 e3,
      spawnPhase cfg env s = some (s1, e1) ∧
      blackListPhase env s1 = some (s2, e2) ∧
      activePhase cfg env s2 = some (s', e3) ∧
      tr = e1 ++ e2 ++ e3 := by
  unfold Tick at h
  split at h
  · exact absurd h (by simp)
  · rename_i pair s1 e1 h1
    split at h
    · exact absurd h (by simp)
    · rename_i pair2 s2 e2 h2
      split at h
      · exact absurd h (by simp)
      · rename_i pair3 s3 e3 h3
        simp only [Option.some.injEq, Prod.mk.injEq] at h
        exact ⟨s1, e1, s2, e2, e3, h1, h2, h.1 ▸ h3, h.2.symm⟩

theorem tryToSpawnWalkerAt_frame (cfg : Config) (env : WalkerEnv) (s : SpawnerState)
    (p : SpawnPoint) (b : Bool) (s' : SpawnerState)
    (h : TryToSpawnWalkerAt cfg env s p = some (b, s')) :
    s'.spawnPoints = s.spawnPoints ∧ s'.bSpawnWalkers = s.bSpawnWalkers ∧
    s'.numberOfWalkers = s.numberOfWalkers ∧ s'.everBlackListed = s.everBlackListed ∧
    s'.walkersBlackList = s.walkersBlackList ∧
    s'.currentIndexToCheck = s.currentIndexToCheck := by
  rcases tryToSpawnWalkerAt_cases cfg env s p b s' h with
    ⟨-, rfl⟩ | ⟨-, rfl⟩ | ⟨-, -, rfl⟩ | ⟨-, -, rfl⟩ <;>
    exact ⟨rfl, rfl, rfl, rfl, rfl, rfl⟩

theorem spawnPhase_frame (cfg : Config) (env : WalkerEnv) (s s' : SpawnerState)
    (tr : List Event) (h : spawnPhase cfg env s = some (s', tr)) :
    s'.spawnPoints = s.spawnPoints ∧ s'.bSpawnWalkers = s.bSpawnWalkers ∧
    s'.numberOfWalkers = s.numberOfWalkers ∧ s'.everBlackListed = s.everBlackListed ∧
    s'.walkersBlackList = s.walkersBlackList := by
  rcases spawnPhase_cases cfg env s s' tr h with ⟨-, rfl, -⟩ | ⟨-, p, s1, b, hg, ht, -⟩
  · exact ⟨rfl, rfl, rfl, rfl, rfl⟩
  · obtain ⟨hs1, -⟩ := getRandomSpawnPoint_some cfg s p s1 hg
    subst hs1
    obtain ⟨h1, h2, h3, h4, h5, -⟩ := tryToSpawnWalkerAt_frame cfg env _ p b s' ht
    exact ⟨h1, h2, h3, h4, h5⟩

theorem blackListPhase_frame (env : WalkerEnv) (s s' : SpawnerState)
    (tr : List Event) (h : blackListPhase env s = some (s', tr)) :
    s'.spawnPoints = s.spawnPoints ∧ s'.bSpawnWalkers = s.bSpawnWalkers ∧
    s'.numberOfWalkers = s.numberOfWalkers ∧ s'.everBlackListed = s.everBlackListed ∧
    s'.walkers = s.walkers ∧ s'.streamPos = s.streamPos ∧
    s'.nextId = s.nextId ∧ s'.created = s.created := by
  rcases blackListPhase_cases env s s' tr h with ⟨-, rfl, -⟩ |
    ⟨-, walker, -, -, ⟨-, -, rfl⟩ | ⟨-, -, rfl⟩ | ⟨-, rfl⟩⟩ <;>
    exact ⟨rfl, rfl, rfl, rfl, rfl, rfl, rfl, rfl⟩

theorem activePhase_frame (cfg : Config) (env : WalkerEnv) (s s' : SpawnerState)
    (tr : List Event) (h : activePhase cfg env s = some (s', tr)) :
    s'.spawnPoints = s.spawnPoints ∧ s'.bSpawnWalkers = s.bSpawnWalkers ∧
    s'.numberOfWalkers = s.numberOfWalkers ∧ s'.nextId = s.nextId ∧
    s'.created = s.created ∧
    (∀ x ∈ s.everBlackListed, x ∈ s'.everBlackListed) := by
  rcases activePhase_cases cfg env s s' tr h with ⟨-, rfl, -⟩ |
    ⟨-, walker, -, -, ⟨-, -, rfl⟩ | ⟨-, -, rfl⟩ | ⟨-, -, rfl | rfl⟩ | ⟨-, -, rfl⟩⟩ <;>
    refine ⟨rfl, rfl, rfl, rfl, rfl, ?_⟩ <;> intro x hx <;>
    first
      | exact hx
      | exact List.mem_cons_of_mem _ hx

theorem tick_frame (cfg : Config) (env : WalkerEnv) (s s' : SpawnerState)
    (tr : List Event) (h : Tick cfg env s = some (s', tr)) :
    s'.spawnPoints = s.spawnPoints ∧ s'.bSpawnWalkers = s.bSpawnWalkers ∧
    s'.numberOfWalkers = s.numberOfWalkers ∧
    (∀ x ∈ s.everBlackListed, x ∈ s'.everBlackListed) := by
  obtain ⟨s1, e1, s2, e2, e3, h1, h2, h3, -⟩ := tick_decompose cfg env s s' tr h
  obtain ⟨f1, f2, f3, f4, -⟩ := spawnPhase_frame cfg env s s1 e1 h1
  obtain ⟨g1, g2, g3, g4, -⟩ := blackListPhase_frame env s1 s2 e2 h2
  obtain ⟨k1, k2, k3, -, -, k6⟩ := activePhase_frame cfg env s2 s' e3 h3
  refine ⟨k1.trans (g1.trans f1), k2.trans (g2.trans f2), k3.trans (g3.trans f3), ?_⟩
  intro x hx
  exact k6 x (g4 ▸ f4 ▸ hx)

theorem tick_isSome (cfg : Config) (env : WalkerEnv) (s : SpawnerState)
    (hsp : 0 < s.spawnPoints.length) : (Tick cfg env s).isSome = true := by
  unfold Tick
  have h1 := spawnPhase_isSome cfg env s hsp
  rcases hg1 : spawnPhase cfg env s with _ | ⟨s1, e1⟩
  · rw [hg1] at h1
    simp at h1
  · obtain ⟨f1, -⟩ := spawnPhase_frame cfg env s s1 e1 hg1
    have h2 := blackListPhase_isSome env s1
    rcases hg2 : blackListPhase env s1 with _ | ⟨s2, e2⟩
    · rw [hg2] at h2
      simp at h2
    · obtain ⟨g1, -⟩ := blackListPhase_frame env s1 s2 e2 hg2
      have hsp2 : 0 < s2.spawnPoints.length := by rw [g1, f1]; exact hsp
      have h3 := activePhase_isSome cfg env s2 hsp2
      rcases hg3 : activePhase cfg env s2 with _ | ⟨s3, e3⟩
      · rw [hg3] at h3
        simp at h3
      · dsimp only
        rw [hg2]
        dsimp only
        rw [hg3]
        rfl

theorem inv_tryToSpawnWalkerAt (cfg : Config) (env : WalkerEnv) (s : SpawnerState)
    (p : SpawnPoint) (b : Bool) (s' : SpawnerState)
    (h : TryToSpawnWalkerAt cfg env s p = some (b, s')) (hI : Inv s) : Inv s' := by
  rcases tryToSpawnWalkerAt_cases cfg env s p b s' h with
    ⟨-, rfl⟩ | ⟨-, rfl⟩ | ⟨-, -, rfl⟩ | ⟨-, -, rfl⟩
  · exact ⟨hI.nodupW, hI.nodupB, hI.disjWB, hI.disjWE, hI.subBE,
      hI.ltW, hI.ltB, hI.ltD, hI.ltE, hI.ltC⟩
  · exact ⟨hI.nodupW, hI.nodupB, hI.disjWB, hI.disjWE, hI.subBE,
      fun w hw => Nat.lt_succ_of_lt (hI.ltW w hw),
      fun w hw => Nat.lt_succ_of_lt (hI.ltB w hw),
      fun w hw => Nat.lt_succ_of_lt (hI.ltD w hw),
      fun w hw => Nat.lt_succ_of_lt (hI.ltE w hw),
      fun w hw => Nat.lt_succ_of_lt (hI.ltC w hw)⟩
  · refine ⟨hI.nodupW, hI.nodupB, hI.disjWB, hI.disjWE, hI.subBE,
      fun w hw => Nat.lt_succ_of_lt (hI.ltW w hw),
      fun w hw => Nat.lt_succ_of_lt (hI.ltB w hw), ?_,
      fun w hw => Nat.lt_succ_of_lt (hI.ltE w hw), ?_⟩
    · intro w hw
      rcases List.mem_cons.mp hw with rfl | hold
      · exact Nat.lt_succ_self _
      · exact Nat.lt_succ_of_lt (hI.ltD w hold)
    · intro w hw
      rcases List.mem_cons.mp hw with rfl | hold
      · exact Nat.lt_succ_self _
      · exact Nat.lt_succ_of_lt (hI.ltC w hold)
  · refine ⟨?_, hI.nodupB, ?_, ?_, hI.subBE, ?_,
      fun w hw => Nat.lt_succ_of_lt (hI.ltB w hw),
      fun w hw => Nat.lt_succ_of_lt (hI.ltD w hw),
      fun w hw => Nat.lt_succ_of_lt (hI.ltE w hw), ?_⟩
    · refine List.nodup_append.mpr ⟨hI.nodupW, List.nodup_singleton _, ?_⟩
      intro x hx hx2
      rw [List.mem_singleton.mp hx2] at hx
      exact absurd (hI.ltW _ hx) (lt_irrefl _)
    · intro w hw
      rcases List.mem_append.mp hw with hold | hnew
      · exact hI.disjWB w hold
      · rw [List.mem_singleton.mp hnew]
        intro hc
        exact absurd (hI.ltB _ hc) (lt_irrefl _)
    · intro w hw
      rcases List.mem_append.mp hw with hold | hnew
      · exact hI.disjWE w hold
      · rw [List.mem_singleton.mp hnew]
        intro hc
        exact absurd (hI.ltE _ hc) (lt_irrefl _)
    · intro w hw
      rcases List.mem_append.mp hw with hold | hnew
      · exact Nat.lt_succ_of_lt (hI.ltW w hold)
      · rw [List.mem_singleton.mp hnew]
        exact Nat.lt_succ_self _
    · intro w hw
      rcases List.mem_cons.mp hw with rfl | hold
      · exact Nat.lt_succ_self _
      · exact Nat.lt_succ_of_lt (hI.ltC w hold)

theorem inv_blackListPhase (env : WalkerEnv) (s s' : SpawnerState) (tr : List Event)
    (h : blackListPhase env s = some (s', tr)) (hI : Inv s) : Inv s' := by
  rcases blackListPhase_cases env s s' tr h with ⟨-, rfl, -⟩ |
    ⟨hlen, walker, hw, -, hcases⟩
  · exact hI
  · obtain ⟨hlt, hwe⟩ := List.getElem?_eq_some.mp hw
    have hmem : walker ∈ s.walkersBlackList := hwe ▸ List.getElem_mem hlt
    have hsub := removeAtSwap_subset s.walkersBlackList
      ((s.currentIndexToCheck + 1) % s.walkersBlackList.length) hlt
    rcases hcases with ⟨-, -, rfl⟩ | ⟨-, -, rfl⟩ | ⟨-, rfl⟩
    · refine ⟨hI.nodupW, removeAtSwap_nodup _ _ hlt hI.nodupB, ?_, hI.disjWE, ?_,
        hI.ltW, ?_, ?_, hI.ltE, hI.ltC⟩
      · intro w hwm hc
        exact hI.disjWB w hwm (hsub _ hc)
      · intro w hwm
        exact hI.subBE w (hsub _ hwm)
      · intro w hwm
        exact hI.ltB w (hsub _ hwm)
      · intro w hwm
        rcases List.mem_cons.mp hwm with rfl | hold
        · exact hI.ltB _ hmem
        · exact hI.ltD w hold
    · refine ⟨hI.nodupW, removeAtSwap_nodup _ _ hlt hI.nodupB, ?_, hI.disjWE, ?_,
        hI.ltW, ?_, hI.ltD, hI.ltE, hI.ltC⟩
      · intro w hwm hc
        exact hI.disjWB w hwm (hsub _ hc)
      · intro w hwm
        exact hI.subBE w (hsub _ hwm)
      · intro w hwm
        exact hI.ltB w (hsub _ hwm)
    · exact ⟨hI.nodupW, hI.nodupB, hI.disjWB, hI.disjWE, hI.subBE,
        hI.ltW, hI.ltB, hI.ltD, hI.ltE, hI.ltC⟩

theorem inv_activePhase (cfg : Config) (env : WalkerEnv) (s s' : SpawnerState)
    (tr : List Event) (h : activePhase cfg env s = some (s', tr)) (hI : Inv s) :
    Inv s' := by
  rcases activePhase_cases cfg env s s' tr h with ⟨-, rfl, -⟩ |
    ⟨hlen, walker, hw, -, hcases⟩
  · exact hI
  · obtain ⟨hlt, hwe⟩ := List.getElem?_eq_some.mp hw
    have hmem : walker ∈ s.walkers := hwe ▸ List.getElem_mem hlt
    have hsub := removeAtSwap_subset s.walkers
      ((s.currentIndexToCheck + 1) % s.walkers.length) hlt
    have hnodup := removeAtSwap_nodup s.walkers
      ((s.currentIndexToCheck + 1) % s.walkers.length) hlt hI.nodupW
    have hnotmem : walker ∉ removeAtSwap s.walkers
        ((s.currentIndexToCheck + 1) % s.walkers.length) :=
      hwe ▸ getElem_not_mem_removeAtSwap s.walkers _ hlt hI.nodupW
    rcases hcases with ⟨-, -, rfl⟩ | ⟨-, -, rfl⟩ | ⟨-, -, rfl | rfl⟩ | ⟨-, -, rfl⟩
    · refine ⟨hnodup, hI.nodupB, ?_, ?_, hI.subBE, ?_, hI.ltB, ?_, hI.ltE, hI.ltC⟩
      · intro w hwm
        exact hI.disjWB w (hsub _ hwm)
      · intro w hwm
        exact hI.disjWE w (hsub _ hwm)
      · intro w hwm
        exact hI.ltW w (hsub _ hwm)
      · intro w hwm
        rcases List.mem_cons.mp hwm with rfl | hold
        · exact hI.ltW _ hmem
        · exact hI.ltD w hold
    · refine ⟨hnodup, hI.nodupB, ?_, ?_, hI.subBE, ?_, hI.ltB, hI.ltD, hI.ltE, hI.ltC⟩
      · intro w hwm
        exact hI.disjWB w (hsub _ hwm)
      · intro w hwm
        exact hI.disjWE w (hsub _ hwm)
      · intro w hwm
        exact hI.ltW w (hsub _ hwm)
    · refine ⟨hnodup, ?_, ?_, ?_, ?_, ?_, ?_, hI.ltD, ?_, hI.ltC⟩
      · refine List.nodup_append.mpr ⟨hI.nodupB, List.nodup_singleton _, ?_⟩
        intro x hx hx2
        rw [List.mem_singleton.mp hx2] at hx
        exact hI.disjWB walker hmem hx
      · intro w hwm hc
        rcases List.mem_append.mp hc with hold | hnew
        · exact hI.disjWB w (hsub _ hwm) hold
        · rw [List.mem_singleton.mp hnew] at hwm
          exact hnotmem hwm
      · intro w hwm hc
        rcases List.mem_cons.mp hc with rfl | hold
        · exact hnotmem hwm
        · exact hI.disjWE w (hsub _ hwm) hold
      · intro w hwm
        rcases List.mem_append.mp hwm with hold | hnew
        · exact List.mem_cons_of_mem _ (hI.subBE w hold)
        · rw [List.mem_singleton.mp hnew]
          exact List.mem_cons_self _ _
      · intro w hwm
        exact hI.ltW w (hsub _ hwm)
      · intro w hwm
        rcases List.mem_append.mp hwm with hold | hnew
        · exact hI.ltB w hold
        · rw [List.mem_singleton.mp hnew]
          exact hI.ltW _ hmem
      · intro w hwm
        rcases List.mem_cons.mp hwm with rfl | hold
        · exact hI.ltW _ hmem
        · exact hI.ltE w hold
    · refine ⟨hnodup, ?_, ?_, ?_, ?_, ?_, ?_, hI.ltD, ?_, hI.ltC⟩
      · refine List.nodup_append.mpr ⟨hI.nodupB, List.nodup_singleton _, ?_⟩
        intro x hx hx2
        rw [List.mem_singleton.mp hx2] at hx
        exact hI.disjWB walker hmem hx
      · intro w hwm hc
        rcases List.mem_append.mp hc with hold | hnew
        · exact hI.disjWB w (hsub _ hwm) hold
        · rw [List.mem_singleton.mp hnew] at hwm
          exact hnotmem hwm
      · intro w hwm hc
        rcases List.mem_cons.mp hc with rfl | hold
        · exact hnotmem hwm
        · exact hI.disjWE w (hsub _ hwm) hold
      · intro w hwm
        rcases List.mem_append.mp hwm with hold | hnew
        · exact List.mem_cons_of_mem _ (hI.subBE w hold)
        · rw [List.mem_singleton.mp hnew]
          exact List.mem_cons_self _ _
      · intro w hwm
        exact hI.ltW w (hsub _ hwm)
      · intro w hwm
        rcases List.mem_append.mp hwm with hold | hnew
        · exact hI.ltB w hold
        · rw [List.mem_singleton.mp hnew]
          exact hI.ltW _ hmem
      · intro w hwm
        rcases List.mem_cons.mp hwm with rfl | hold
        · exact hI.ltW _ hmem
        · exact hI.ltE w hold
    · exact ⟨hI.nodupW, hI.nodupB, hI.disjWB, hI.disjWE, hI.subBE,
        hI.ltW, hI.ltB, hI.ltD, hI.ltE, hI.ltC⟩

theorem partition_tryToSpawnWalkerAt (cfg : Config) (env : WalkerEnv) (s : SpawnerState)
    (p : SpawnPoint) (b : Bool) (s' : SpawnerState)
    (h : TryToSpawnWalkerAt cfg env s p = some (b, s')) (hI : Inv s)
    (hP : Partition s) : Partition s' := by
  rcases tryToSpawnWalkerAt_cases cfg env s p b s' h with
    ⟨-, rfl⟩ | ⟨-, rfl⟩ | ⟨-, -, rfl⟩ | ⟨-, -, rfl⟩
  · exact hP
  · exact hP
  · intro w hw
    rcases List.mem_cons.mp hw with rfl | hold
    · refine Or.inr (Or.inr ⟨?_, ?_, List.mem_cons_self _ _⟩)
      · intro hc
        exact absurd (hI.ltW _ hc) (lt_irrefl _)
      · intro hc
        exact absurd (hI.ltB _ hc) (lt_irrefl _)
    · have hne : w ≠ s.nextId := fun hcc => absurd (hcc ▸ hI.ltC w hold) (lt_irrefl _)
      rcases hP w hold with ⟨h1, h2, h3⟩ | ⟨h1, h2, h3⟩ | ⟨h1, h2, h3⟩
      · refine Or.inl ⟨h1, h2, fun hc => ?_⟩
        rcases List.mem_cons.mp hc with h4 | h4
        exacts [hne h4, h3 h4]
      · refine Or.inr (Or.inl ⟨h1, h2, fun hc => ?_⟩)
        rcases List.mem_cons.mp hc with h4 | h4
        exacts [hne h4, h3 h4]
      · exact Or.inr (Or.inr ⟨h1, h2, List.mem_cons_of_mem _ h3⟩)
  · intro w hw
    rcases List.mem_cons.mp hw with rfl | hold
    · refine Or.inl ⟨List.mem_append.mpr (Or.inr (List.mem_singleton.mpr rfl)), ?_, ?_⟩
      · intro hc
        exact absurd (hI.ltB _ hc) (lt_irrefl _)
      · intro hc
        exact absurd (hI.ltD _ hc) (lt_irrefl _)
    · have hne : w ≠ s.nextId := fun hcc => absurd (hcc ▸ hI.ltC w hold) (lt_irrefl _)
      rcases hP w hold with ⟨h1, h2, h3⟩ | ⟨h1, h2, h3⟩ | ⟨h1, h2, h3⟩
      · exact Or.inl ⟨List.mem_append_left _ h1, h2, h3⟩
      · refine Or.inr (Or.inl ⟨fun hc => ?_, h2, h3⟩)
        rcases List.mem_append.mp hc with h4 | h4
        exacts [h1 h4, hne (List.mem_singleton.mp h4)]
      · refine Or.inr (Or.inr ⟨fun hc => ?_, h2, h3⟩)
        rcases List.mem_append.mp hc with h4 | h4
        exacts [h1 h4, hne (List.mem_singleton.mp h4)]

theorem partition_blackListPhase (env : WalkerEnv) (s s' : SpawnerState)
    (tr : List Event) (h : blackListPhase env s = some (s', tr)) (hI : Inv s)
    (hP : Partition s) (hkill : ∀ w, env.isNull w = false) : Partition s' := by
  rcases blackListPhase_cases env s s' tr h with ⟨-, rfl, -⟩ |
    ⟨hlen, walker, hw, -, hcases⟩
  · exact hP
  · obtain ⟨hlt, hwe⟩ := List.getElem?_eq_some.mp hw
    have hmem : walker ∈ s.walkersBlackList := hwe ▸ List.getElem_mem hlt
    have hsub := removeAtSwap_subset s.walkersBlackList
      ((s.currentIndexToCheck + 1) % s.walkersBlackList.length) hlt
    have hnotmem : walker ∉ removeAtSwap s.walkersBlackList
        ((s.currentIndexToCheck + 1) % s.walkersBlackList.length) :=
      hwe ▸ getElem_not_mem_removeAtSwap s.walkersBlackList _ hlt hI.nodupB
    rcases hcases with ⟨-, -, rfl⟩ | ⟨-, hnull, rfl⟩ | ⟨-, rfl⟩
    · intro w hw2
      by_cases hww : w = walker
      · subst hww
        rcases hP w hw2 with ⟨h1, h2, h3⟩ | ⟨h1, h2, h3⟩ | ⟨h1, h2, h3⟩
        · exact absurd hmem h2
        · exact Or.inr (Or.inr ⟨h1, hnotmem, List.mem_cons_self _ _⟩)
        · exact absurd hmem h2
      · have hne2 : w ≠ s.walkersBlackList[(s.currentIndexToCheck + 1) %
            s.walkersBlackList.length] := by
          rw [hwe]
          exact hww
        rcases hP w hw2 with ⟨h1, h2, h3⟩ | ⟨h1, h2, h3⟩ | ⟨h1, h2, h3⟩
        · refine Or.inl ⟨h1, fun hc => h2 (hsub _ hc), fun hc => ?_⟩
          rcases List.mem_cons.mp hc with h4 | h4
          exacts [hww h4, h3 h4]
        · refine Or.inr (Or.inl ⟨h1,
            mem_removeAtSwap_of_ne s.walkersBlackList _ hlt w h2 hne2, fun hc => ?_⟩)
          rcases List.mem_cons.mp hc with h4 | h4
          exacts [hww h4, h3 h4]
        · exact Or.inr (Or.inr ⟨h1, fun hc => h2 (hsub _ hc),
            List.mem_cons_of_mem _ h3⟩)
    · exact absurd ((hkill walker).symm.trans hnull) (by simp)
    · exact hP

theorem partition_activePhase (cfg : Config) (env : WalkerEnv) (s s' : SpawnerState)
    (tr : List Event) (h : activePhase cfg env s = some (s', tr)) (hI : Inv s)
    (hP : Partition s) (hkill : ∀ w, env.isNull w = false) : Partition s' := by
  rcases activePhase_cases cfg env s s' tr h with ⟨-, rfl, -⟩ |
    ⟨hlen, walker, hw, -, hcases⟩
  · exact hP
  · obtain ⟨hlt, hwe⟩ := List.getElem?_eq_some.mp hw
    have hmem : walker ∈ s.walkers := hwe ▸ List.getElem_mem hlt
    have hsub := removeAtSwap_subset s.walkers
      ((s.currentIndexToCheck + 1) % s.walkers.length) hlt
    have hnotmem : walker ∉ removeAtSwap s.walkers
        ((s.currentIndexToCheck + 1) % s.walkers.length) :=
      hwe ▸ getElem_not_mem_removeAtSwap s.walkers _ hlt hI.nodupW
    have hne2 : ∀ w, w ≠ walker →
        w ≠ s.walkers[(s.currentIndexToCheck + 1) % s.walkers.length] := by
      intro w hww
      rw [hwe]
      exact hww
    rcases hcases with ⟨-, -, rfl⟩ | ⟨-, hnull, rfl⟩ | ⟨-, -, hsf⟩ | ⟨-, -, rfl⟩
    · intro w hw2
      by_cases hww : w = walker
      · subst hww
        rcases hP w hw2 with ⟨h1, h2, h3⟩ | ⟨h1, h2, h3⟩ | ⟨h1, h2, h3⟩
        · exact Or.inr (Or.inr ⟨hnotmem, h2, List.mem_cons_self _ _⟩)
        · exact absurd hmem h1
        · exact absurd hmem h1
      · rcases hP w hw2 with ⟨h1, h2, h3⟩ | ⟨h1, h2, h3⟩ | ⟨h1, h2, h3⟩
        · refine Or.inl ⟨mem_removeAtSwap_of_ne s.walkers _ hlt w h1 (hne2 w hww),
            h2, fun hc => ?_⟩
          rcases List.mem_cons.mp hc with h4 | h4
          exacts [hww h4, h3 h4]
        · refine Or.inr (Or.inl ⟨fun hc => h1 (hsub _ hc), h2, fun hc => ?_⟩)
          rcases List.mem_cons.mp hc with h4 | h4
          exacts [hww h4, h3 h4]
        · exact Or.inr (Or.inr ⟨fun hc => h1 (hsub _ hc), h2,
            List.mem_cons_of_mem _ h3⟩)
    · exact absurd ((hkill walker).symm.trans hnull) (by simp)
    · rcases hsf with rfl | rfl <;>
        · intro w hw2
          by_cases hww : w = walker
          · subst hww
            rcases hP w hw2 with ⟨h1, h2, h3⟩ | ⟨h1, h2, h3⟩ | ⟨h1, h2, h3⟩
            · exact Or.inr (Or.inl ⟨hnotmem,
                List.mem_append.mpr (Or.inr (List.mem_singleton.mpr rfl)), h3⟩)
            · exact absurd hmem h1
            · exact absurd hmem h1
          · rcases hP w hw2 with ⟨h1, h2, h3⟩ | ⟨h1, h2, h3⟩ | ⟨h1, h2, h3⟩
            · refine Or.inl ⟨mem_removeAtSwap_of_ne s.walkers _ hlt w h1 (hne2 w hww),
                fun hc => ?_, h3⟩
              rcases List.mem_append.mp hc with h4 | h4
              exacts [h2 h4, hww (List.mem_singleton.mp h4)]
            · exact Or.inr (Or.inl ⟨fun hc => h1 (hsub _ hc),
                List.mem_append_left _ h2, h3⟩)
            · refine Or.inr (Or.inr ⟨fun hc => h1 (hsub _ hc), fun hc => ?_, h3⟩)
              rcases List.mem_append.mp hc with h4 | h4
              exacts [h2 h4, hww (List.mem_singleton.mp h4)]
    · exact hP

theorem setNumberOfWalkers_frame (s : SpawnerState) (count : Int) :
    (SetNumberOfWalkers s count).spawnPoints = s.spawnPoints ∧
    (SetNumberOfWalkers s count).walkers = s.walkers ∧
    (SetNumberOfWalkers s count).walkersBlackList = s.walkersBlackList ∧
    (SetNumberOfWalkers s count).destroyed = s.destroyed ∧
    (SetNumberOfWalkers s count).created = s.created ∧
    (SetNumberOfWalkers s count).everBlackListed = s.everBlackListed ∧
    (SetNumberOfWalkers s count).nextId = s.nextId := by
  unfold SetNumberOfWalkers
  split <;> exact ⟨rfl, rfl, rfl, rfl, rfl, rfl, rfl⟩

/-! Section: Lifting the invariants through `Tick`, `run` and `BeginPlay` -/

theorem inv_setNumberOfWalkers (s : SpawnerState) (count : Int) (hI : Inv s) :
    Inv (SetNumberOfWalkers s count) := by
  unfold SetNumberOfWalkers
  split <;>
    exact ⟨hI.nodupW, hI.nodupB, hI.disjWB, hI.disjWE, hI.subBE,
      hI.ltW, hI.ltB, hI.ltD, hI.ltE, hI.ltC⟩

theorem partition_setNumberOfWalkers (s : SpawnerState) (count : Int)
    (hP : Partition s) : Partition (SetNumberOfWalkers s count) := by
  unfold SetNumberOfWalkers
  split <;> exact hP

theorem inv_spawnPhase (cfg : Config) (env : WalkerEnv) (s s' : SpawnerState)
    (tr : List Event) (h : spawnPhase cfg env s = some (s', tr)) (hI : Inv s) :
    Inv s' := by
  rcases spawnPhase_cases cfg env s s' tr h with ⟨-, rfl, -⟩ | ⟨-, p, s1, b, hg, ht, -⟩
  · exact hI
  · obtain ⟨hs1, -⟩ := getRandomSpawnPoint_some cfg s p s1 hg
    subst hs1
    exact inv_tryToSpawnWalkerAt cfg env _ p b s' ht
      ⟨hI.nodupW, hI.nodupB, hI.disjWB, hI.disjWE, hI.subBE,
        hI.ltW, hI.ltB, hI.ltD, hI.ltE, hI.ltC⟩

theorem partition_spawnPhase (cfg : Config) (env : WalkerEnv) (s s' : SpawnerState)
    (tr : List Event) (h : spawnPhase cfg env s = some (s', tr)) (hI : Inv s)
    (hP : Partition s) : Partition s' := by
  rcases spawnPhase_cases cfg env s s' tr h with ⟨-, rfl, -⟩ | ⟨-, p, s1, b, hg, ht, -⟩
  · exact hP
  · obtain ⟨hs1, -⟩ := getRandomSpawnPoint_some cfg s p s1 hg
    subst hs1
    exact partition_tryToSpawnWalkerAt cfg env _ p b s' ht
      ⟨hI.nodupW, hI.nodupB, hI.disjWB, hI.disjWE, hI.subBE,
        hI.ltW, hI.ltB, hI.ltD, hI.ltE, hI.ltC⟩ hP

theorem inv_tick (cfg : Config) (env : WalkerEnv) (s s' : SpawnerState)
    (tr : List Event) (h : Tick cfg env s = some (s', tr)) (hI : Inv s) : Inv s' := by
  obtain ⟨s1, e1, s2, e2, e3, h1, h2, h3, -⟩ := tick_decompose cfg env s s' tr h
  exact inv_activePhase cfg env s2 s' e3 h3
    (inv_blackListPhase env s1 s2 e2 h2 (inv_spawnPhase cfg env s s1 e1 h1 hI))

theorem partition_tick (cfg : Config) (env : WalkerEnv) (s s' : SpawnerState)
    (tr : List Event) (h : Tick cfg env s = some (s', tr)) (hI : Inv s)
    (hP : Partition s) (hkill : ∀ w, env.isNull w = false) : Partition s' := by
  obtain ⟨s1, e1, s2, e2, e3, h1, h2, h3, -⟩ := tick_decompose cfg env s s' tr h
  have hI1 := inv_spawnPhase cfg env s s1 e1 h1 hI
  have hI2 := inv_blackListPhase env s1 s2 e2 h2 hI1
  exact partition_activePhase cfg env s2 s' e3 h3 hI2
    (partition_blackListPhase env s1 s2 e2 h2 hI1
      (partition_spawnPhase cfg env s s1 e1 h1 hI hP) hkill) hkill

theorem applyOp_tick_eq (cfg : Config) (s : SpawnerState) (env : WalkerEnv) :
    applyOp cfg s (Op.opTick env) = (Tick cfg env s).map Prod.fst := rfl

theorem applyOp_set_eq (cfg : Config) (s : SpawnerState) (count : Int) :
    applyOp cfg s (Op.opSetNumberOfWalkers count) = some (SetNumberOfWalkers s count) :=
  rfl

theorem inv_applyOp (cfg : Config) (s s' : SpawnerState) (op : Op)
    (h : applyOp cfg s op = some s') (hI : Inv s) : Inv s' := by
  cases op with
  | opTick env =>
    rw [applyOp_tick_eq] at h
    rcases ht : Tick cfg env s with _ | ⟨s1, tr⟩
    · rw [ht] at h
      simp at h
    · rw [ht] at h
      simp only [Option.map_some', Option.some.injEq] at h
      exact h ▸ inv_tick cfg env s s1 tr ht hI
  | opSetNumberOfWalkers count =>
    rw [applyOp_set_eq] at h
    simp only [Option.some.injEq] at h
    exact h ▸ inv_setNumberOfWalkers s count hI

theorem inv_run (cfg : Config) (ops : List Op) :
    ∀ s s', run cfg s ops = some s' → Inv s → Inv s' := by
  induction ops with
  | nil =>
    intro s s' h hI
    unfold run at h
    simp only [Option.some.injEq] at h
    exact h ▸ hI
  | cons op ops ih =>
    intro s s' h hI
    unfold run at h
    split at h
    · exact absurd h (by simp)
    · rename_i s1 h1
      exact ih s1 s' h (inv_applyOp cfg s s1 op h1 hI)

theorem partition_run (cfg : Config) (ops : List Op) :
    ∀ s s', run cfg s ops = some s' → Inv s → Partition s →
      TickEnvsNoKill ops → Partition s' := by
  induction ops with
  | nil =>
    intro s s' h hI hP hk
    unfold run at h
    simp only [Option.some.injEq] at h
    exact h ▸ hP
  | cons op ops ih =>
    intro s s' h hI hP hk
    unfold run at h
    split at h
    · exact absurd h (by simp)
    · rename_i s1 h1
      have hk1 : TickEnvsNoKill ops := by
        intro o ho env heq
        exact hk o (List.mem_cons_of_mem _ ho) env heq
      have hI1 := inv_applyOp cfg s s1 op h1 hI
      have hP1 : Partition s1 := by
        cases op with
        | opTick env =>
          rw [applyOp_tick_eq] at h1
          rcases ht : Tick cfg env s with _ | ⟨s2, tr⟩
          · rw [ht] at h1
            simp at h1
          · rw [ht] at h1
            simp only [Option.map_some', Option.some.injEq] at h1
            exact h1 ▸ partition_tick cfg env s s2 tr ht hI hP
              (hk _ (List.mem_cons_self _ _) env rfl)
        | opSetNumberOfWalkers count =>
          rw [applyOp_set_eq] at h1
          simp only [Option.some.injEq] at h1
          exact h1 ▸ partition_setNumberOfWalkers s count hP
      exact ih s1 s' h hI1 hP1 hk1

theorem inv_batchSpawn (cfg : Config) (env : WalkerEnv) (pts : List SpawnPoint)
    (k : Nat) : ∀ i s s', batchSpawn cfg env pts i k s = some s' → Inv s → Inv s' := by
  induction k with
  | zero =>
    intro i s s' h hI
    unfold batchSpawn at h
    simp only [Option.some.injEq] at h
    exact h ▸ hI
  | succ k ih =>
    intro i s s' h hI
    unfold batchSpawn at h
    split at h
    · exact absurd h (by simp)
    · rename_i p hp
      split at h
      · exact absurd h (by simp)
      · rename_i pair b s1 ht
        exact ih (i + 1) s1 s' h (inv_tryToSpawnWalkerAt cfg env s p b s1 ht hI)

theorem partition_batchSpawn (cfg : Config) (env : WalkerEnv) (pts : List SpawnPoint)
    (k : Nat) : ∀ i s s', batchSpawn cfg env pts i k s = some s' → Inv s →
      Partition s → Partition s' := by
  induction k with
  | zero =>
    intro i s s' h hI hP
    unfold batchSpawn at h
    simp only [Option.some.injEq] at h
    exact h ▸ hP
  | succ k ih =>
    intro i s s' h hI hP
    unfold batchSpawn at h
    split at h
    · exact absurd h (by simp)
    · rename_i p hp
      split at h
      · exact absurd h (by simp)
      · rename_i pair b s1 ht
        exact ih (i + 1) s1 s' h (inv_tryToSpawnWalkerAt cfg env s p b s1 ht hI)
          (partition_tryToSpawnWalkerAt cfg env s p b s1 ht hI hP)

theorem inv_initialState (cfg : Config) (world : List (SpawnPoint × Bool)) :
    Inv (initialState cfg world) := by
  refine ⟨List.nodup_nil, List.nodup_nil, ?_, ?_, ?_, ?_, ?_, ?_, ?_, ?_⟩ <;>
    intro w hw <;> exact absurd hw (List.not_mem_nil w)

theorem partition_initialState (cfg : Config) (world : List (SpawnPoint × Bool)) :
    Partition (initialState cfg world) := by
  intro w hw
  exact absurd hw (List.not_mem_nil w)

theorem inv_beginPlay (cfg : Config) (env : WalkerEnv)
    (world : List (SpawnPoint × Bool)) (s0 : SpawnerState)
    (h : BeginPlay cfg env world = some s0) : Inv s0 ∧ Partition s0 := by
  unfold BeginPlay at h
  split at h
  · exact ⟨inv_batchSpawn cfg env _ _ _ _ s0 h (inv_initialState cfg world),
      partition_batchSpawn cfg env _ _ _ _ s0 h (inv_initialState cfg world)
        (partition_initialState cfg world)⟩
  · simp only [Option.some.injEq] at h
    exact h ▸ ⟨inv_initialState cfg world, partition_initialState cfg world⟩

/-! Section: Run-level frame facts and trace facts -/

theorem applyOp_everBL_mono (cfg : Config) (s s' : SpawnerState) (op : Op)
    (h : applyOp cfg s op = some s') :
    ∀ x ∈ s.everBlackListed, x ∈ s'.everBlackListed := by
  cases op with
  | opTick env =>
    rw [applyOp_tick_eq] at h
    rcases ht : Tick cfg env s with _ | ⟨s1, tr⟩
    · rw [ht] at h
      simp at h
    · rw [ht] at h
      simp only [Option.map_some', Option.some.injEq] at h
      obtain ⟨-, -, -, hm⟩ := tick_frame cfg env s s1 tr ht
      exact h ▸ hm
  | opSetNumberOfWalkers count =>
    rw [applyOp_set_eq] at h
    simp only [Option.some.injEq] at h
    obtain ⟨-, -, -, -, -, he, -⟩ := setNumberOfWalkers_frame s count
    intro x hx
    rw [← h, he]
    exact hx

theorem run_everBL_mono (cfg : Config) (ops : List Op) :
    ∀ s s', run cfg s ops = some s' →
      ∀ x ∈ s.everBlackListed, x ∈ s'.everBlackListed := by
  induction ops with
  | nil =>
    intro s s' h
    unfold run at h
    simp only [Option.some.injEq] at h
    exact h ▸ fun x hx => hx
  | cons op ops ih =>
    intro s s' h
    unfold run at h
    split at h
    · exact absurd h (by simp)
    · rename_i s1 h1
      intro x hx
      exact ih s1 s' h x (applyOp_everBL_mono cfg s s1 op h1 x hx)

theorem setNumberOfWalkers_nonpos (s : SpawnerState) (count : Int)
    (hc : count ≤ 0) : (SetNumberOfWalkers s count).bSpawnWalkers = false := by
  unfold SetNumberOfWalkers
  rw [if_neg (by omega)]

theorem run_bSpawn_false (cfg : Config) (ops : List Op) :
    ∀ s s', run cfg s ops = some s' → s.bSpawnWalkers = false → NonEnabling ops →
      s'.bSpawnWalkers = false := by
  induction ops with
  | nil =>
    intro s s' h hb hne
    unfold run at h
    simp only [Option.some.injEq] at h
    exact h ▸ hb
  | cons op ops ih =>
    intro s s' h hb hne
    unfold run at h
    split at h
    · exact absurd h (by simp)
    · rename_i s1 h1
      have hne1 : NonEnabling ops := fun o ho c hc =>
        hne o (List.mem_cons_of_mem _ ho) c hc
      have hb1 : s1.bSpawnWalkers = false := by
        cases op with
        | opTick env =>
          rw [applyOp_tick_eq] at h1
          rcases ht : Tick cfg env s with _ | ⟨s2, tr⟩
          · rw [ht] at h1
            simp at h1
          · rw [ht] at h1
            simp only [Option.map_some', Option.some.injEq] at h1
            obtain ⟨-, hbs, -, -⟩ := tick_frame cfg env s s2 tr ht
            rw [← h1, hbs]
            exact hb
        | opSetNumberOfWalkers count =>
          rw [applyOp_set_eq] at h1
          simp only [Option.some.injEq] at h1
          rw [← h1]
          exact setNumberOfWalkers_nonpos s count
            (hne _ (List.mem_cons_self _ _) count rfl)
      exact ih s1 s' h hb1 hne1

theorem beginPlay_insufficient (cfg : Config) (env : WalkerEnv)
    (world : List (SpawnPoint × Bool))
    (hfew : (discoveredSpawnPoints world).length < 2) :
    BeginPlay cfg env world = some (initialState cfg world) ∧
    (initialState cfg world).bSpawnWalkers = false := by
  have hb : (initialState cfg world).bSpawnWalkers = false := by
    unfold initialState
    exact if_pos hfew
  constructor
  · unfold BeginPlay
    rw [hb]
    simp
  · exact hb

theorem spawnPhase_disabled (cfg : Config) (env : WalkerEnv) (s : SpawnerState)
    (hb : s.bSpawnWalkers = false) : spawnPhase cfg env s = some (s, []) := by
  unfold spawnPhase
  rw [if_neg (by simp [hb])]

theorem spawnAttemptCount_blackListPhase (env : WalkerEnv) (s s' : SpawnerState)
    (tr : List Event) (h : blackListPhase env s = some (s', tr)) :
    spawnAttemptCount tr = 0 := by
  rcases blackListPhase_cases env s s' tr h with ⟨-, -, rfl⟩ |
    ⟨-, walker, -, rfl, -⟩
  · rfl
  · rfl

theorem spawnAttemptCount_activePhase (cfg : Config) (env : WalkerEnv)
    (s s' : SpawnerState) (tr : List Event)
    (h : activePhase cfg env s = some (s', tr)) : spawnAttemptCount tr = 0 := by
  rcases activePhase_cases cfg env s s' tr h with ⟨-, -, rfl⟩ |
    ⟨-, walker, -, rfl, -⟩
  · rfl
  · rfl

theorem kinds_spawnPhase (cfg : Config) (env : WalkerEnv) (s s' : SpawnerState)
    (tr : List Event) (h : spawnPhase cfg env s = some (s', tr)) :
    List.Sublist (tr.map eventKind) [0] := by
  rcases spawnPhase_cases cfg env s s' tr h with ⟨-, -, rfl⟩ |
    ⟨-, p, s1, b, -, -, rfl⟩
  · exact List.nil_sublist _
  · exact List.Sublist.refl _

theorem kinds_blackListPhase (env : WalkerEnv) (s s' : SpawnerState)
    (tr : List Event) (h : blackListPhase env s = some (s', tr)) :
    List.Sublist (tr.map eventKind) [1] := by
  rcases blackListPhase_cases env s s' tr h with ⟨-, -, rfl⟩ |
    ⟨-, walker, -, rfl, -⟩
  · exact List.nil_sublist _
  · exact List.Sublist.refl _

theorem kinds_activePhase (cfg : Config) (env : WalkerEnv) (s s' : SpawnerState)
    (tr : List Event) (h : activePhase cfg env s = some (s', tr)) :
    List.Sublist (tr.map eventKind) [2] := by
  rcases activePhase_cases cfg env s s' tr h with ⟨-, -, rfl⟩ |
    ⟨-, walker, -, rfl, -⟩
  · exact List.nil_sublist _
  · exact List.Sublist.refl _

/-! Section: Claim C1 -/

/-- Claim C1 counterexample: a startup that discovers only one ongoing spawn
point (fewer than 2) disables spawning, but a later `SetNumberOfWalkers 1` call
re-enables it and the next tick performs one spawn attempt — refuting the
claim that no spawn attempt ever occurs regardless of later
`SetNumberOfWalkers` calls. -/
theorem claim1_counterexample :
    (discoveredSpawnPoints worldOne).length < 2 ∧
    ((BeginPlay baseCfg envNominal worldOne).bind (fun s0 =>
      (run baseCfg s0 [Op.opSetNumberOfWalkers 1]).bind (fun s1 =>
        (Tick baseCfg envNominal s1).map (fun r => spawnAttemptCount r.2))))
      = some 1 :=
  ⟨by decide, by decide⟩

/-- Claim C1 (amended): if fewer than two ongoing spawn points are discovered
at startup, then along any run whose `SetNumberOfWalkers` calls all carry a
non-positive count, spawning stays disabled: no subsequent tick performs a
spawn attempt.  (The unamended claim fails because `SetNumberOfWalkers` with a
positive count sets `bSpawnWalkers` back to `true`.) -/
theorem claim1_amended (cfg : Config) (env0 : WalkerEnv)
    (world : List (SpawnPoint × Bool)) (s0 : SpawnerState) (ops : List Op)
    (s : SpawnerState) (env : WalkerEnv) (s' : SpawnerState) (tr : List Event)
    (h0 : BeginPlay cfg env0 world = some s0)
    (hfew : (discoveredSpawnPoints world).length < 2)
    (hrun : run cfg s0 ops = some s)
    (hne : NonEnabling ops)
    (ht : Tick cfg env s = some (s', tr)) :
    spawnAttemptCount tr = 0 := by
  obtain ⟨hbp, hb0⟩ := beginPlay_insufficient cfg env0 world hfew
  rw [h0] at hbp
  have hs0 : s0 = initialState cfg world := Option.some.inj hbp
  have hbs : s.bSpawnWalkers = false :=
    run_bSpawn_false cfg ops s0 s hrun (hs0 ▸ hb0) hne
  obtain ⟨s1, e1, s2, e2, e3, h1, h2, h3, rfl⟩ := tick_decompose cfg env s s' tr ht
  rw [spawnPhase_disabled cfg env s hbs] at h1
  simp only [Option.some.injEq, Prod.mk.injEq] at h1
  have c2 := spawnAttemptCount_blackListPhase env s1 s2 e2 h2
  have c3 := spawnAttemptCount_activePhase cfg env s2 s' e3 h3
  unfold spawnAttemptCount at c2 c3 ⊢
  rw [List.countP_append, List.countP_append, c2, c3, ← h1.2]
  rfl

/-- Claim C1 witness: the amended theorem applied to a startup over one ongoing
spawn point, an empty run, and one nominal tick. -/
theorem claim1_witness : spawnAttemptCount [] = 0 :=
  claim1_amended baseCfg envNominal worldOne (initialState baseCfg worldOne) []
    (initialState baseCfg worldOne) envNominal (initialState baseCfg worldOne) []
    (by decide) (by decide) (by decide)
    (fun op ho _ _ => absurd ho (List.not_mem_nil op)) (by decide)

/-! Section: Claim C2 -/

/-- Claim C2 counterexample: a reachable tick whose event trace is
spawn attempt, then Blacklist-Set check, then Active-Set check (kinds
`[0, 1, 2]`), which does not embed into the claimed order spawn, Active check,
Blacklist check (`[0, 2, 1]`): the code checks the black list before the
active set. -/
theorem claim2_counterexample :
    ((BeginPlay cfgTwo envNominal worldTwo).bind (fun s0 =>
      (run cfgTwo s0 [Op.opTick envStuckOne]).bind (fun s1 =>
        (Tick cfgTwo envNominal s1).map (fun r => r.2.map eventKind))))
      = some [0, 1, 2] ∧
    ¬ List.Sublist [0, 1, 2] [0, 2, 1] :=
  ⟨by decide, by decide⟩

/-- Claim C2 (amended): within one tick, at most one spawn attempt, at most one
Blacklist-Set check, and at most one Active-Set check occur, in that fixed
order — spawn attempt first, then the Blacklist-Set check, then the Active-Set
check (the trace of every successful tick is a sublist of `[0, 1, 2]` in event
kinds).  (The unamended claim places the Active-Set check before the
Blacklist-Set check; the code does the opposite.) -/
theorem claim2_amended (cfg : Config) (env : WalkerEnv) (s s' : SpawnerState)
    (tr : List Event) (h : Tick cfg env s = some (s', tr)) :
    List.Sublist (tr.map eventKind) [0, 1, 2] := by
  obtain ⟨s1, e1, s2, e2, e3, h1, h2, h3, rfl⟩ := tick_decompose cfg env s s' tr h
  have k1 := kinds_spawnPhase cfg env s s1 e1 h1
  have k2 := kinds_blackListPhase env s1 s2 e2 h2
  have k3 := kinds_activePhase cfg env s2 s' e3 h3
  rw [List.map_append, List.map_append]
  exact (k1.append k2).append k3

/-- Claim C2 witness: the amended theorem applied to a concrete tick of the
two-walker scenario, whose trace has all three event kinds. -/
theorem claim2_witness :
    List.Sublist ([Event.spawnAttempt pA, Event.blackListCheck 1,
      Event.activeCheck 2].map eventKind) [0, 1, 2] :=
  claim2_amended cfgTwo envNominal sTwoStuck
    { sTwoStuck with
        walkers := [0, 2], currentIndexToCheck := 3, streamPos := 5, nextId := 3,
        created := [2, 1, 0] }
    [Event.spawnAttempt pA, Event.blackListCheck 1, Event.activeCheck 2]
    (by decide)

/-! Section: Claim C3 -/

/-- Claim C3 counterexample: startup spawns walker `0`; one tick under an
environment that nulls every handle (the engine destroyed the walker
externally) removes it from the Active Set without invoking `Destroy` — in the
resulting reachable state walker `0` was created but is in none of
{Active, Blacklist, destroyed}, so the claimed exclusive partition is false. -/
theorem claim3_counterexample :
    ((BeginPlay cfgOne envNominal worldTwo).bind (fun s0 =>
      run cfgOne s0 [Op.opTick envKill])).map
        (fun s => (decide (Exclusivity s), s.created, s.walkers,
          s.walkersBlackList, s.destroyed))
      = some (false, [0], [], [], []) := by
  decide

/-- Claim C3 (amended): in every state reachable by startup, ticks and
`SetNumberOfWalkers` calls, the Active Set and the Blacklist Set are disjoint;
and provided no tick environment destroys a walker entity externally (no
handle reads null), every agent the core created is in exactly one of
{Active-Set member, Blacklist-Set member, destroyed}.  (The unamended claim
fails only when the engine destroys an entity externally: its next check then
removes it from its set without a `Destroy` call.) -/
theorem claim3_amended (cfg : Config) (env0 : WalkerEnv)
    (world : List (SpawnPoint × Bool)) (s0 : SpawnerState) (ops : List Op)
    (s : SpawnerState)
    (h0 : BeginPlay cfg env0 world = some s0)
    (hrun : run cfg s0 ops = some s) :
    (∀ w ∈ s.walkers, w ∉ s.walkersBlackList) ∧
    (TickEnvsNoKill ops → Partition s) := by
  obtain ⟨hI0, hP0⟩ := inv_beginPlay cfg env0 world s0 h0
  have hI := inv_run cfg ops s0 s hrun hI0
  exact ⟨hI.disjWB, fun hk => partition_run cfg ops s0 s hrun hI0 hP0 hk⟩

/-- Claim C3 witness: the amended theorem applied to the one-walker startup and
an empty run. -/
theorem claim3_witness :
    (∀ w ∈ sOne.walkers, w ∉ sOne.walkersBlackList) ∧
    (TickEnvsNoKill [] → Partition sOne) :=
  claim3_amended cfgOne envNominal worldTwo sOne [] sOne (by decide) (by decide)

/-! Section: Claim C4 -/

/-- Claim C4: quarantine is one-way — in any run from startup, once an agent
is a member of the Blacklist Set it is never a member of the Active Set in any
later reachable state; fresh handles and the `everBlackListed` ledger make the
only exit from the black list destruction. -/
theorem claim4_oneWay (cfg : Config) (env0 : WalkerEnv)
    (world : List (SpawnPoint × Bool)) (s0 : SpawnerState) (ops1 : List Op)
    (s1 : SpawnerState) (w : Nat) (ops2 : List Op) (s2 : SpawnerState)
    (h0 : BeginPlay cfg env0 world = some s0)
    (h1 : run cfg s0 ops1 = some s1)
    (hw : w ∈ s1.walkersBlackList)
    (h2 : run cfg s1 ops2 = some s2) :
    w ∉ s2.walkers := by
  obtain ⟨hI0, -⟩ := inv_beginPlay cfg env0 world s0 h0
  have hI1 := inv_run cfg ops1 s0 s1 h1 hI0
  have hI2 := inv_run cfg ops2 s1 s2 h2 hI1
  have hE1 : w ∈ s1.everBlackListed := hI1.subBE w hw
  have hE2 : w ∈ s2.everBlackListed := run_everBL_mono cfg ops2 s1 s2 h2 w hE1
  intro hc
  exact hI2.disjWE w hc hE2

/-- Claim C4 witness: walker `1`, black-listed after one stuck tick of the
two-walker startup, is not in the Active Set afterwards. -/
theorem claim4_witness : (1 : Nat) ∉ sTwoStuck.walkers :=
  claim4_oneWay cfgTwo envNominal worldTwo sTwoStart [Op.opTick envStuckOne]
    sTwoStuck 1 [] sTwoStuck (by decide) (by decide) (by decide) (by decide)

/-! Section: Claim C5 -/

/-- Claim C5: spawn attempts are atomic on failure — a failed
`TryToSpawnWalkerAt` leaves the Active Set and Blacklist Set unchanged, any
entity created during the attempt has had `Destroy` invoked on it, and an
entity is created during a failed attempt exactly when controller attachment
failed, in which case the just-created entity is destroyed. -/
theorem claim5_atomicFailure (cfg : Config) (env : WalkerEnv) (s : SpawnerState)
    (p : SpawnPoint) (s' : SpawnerState) (hI : Inv s)
    (h : TryToSpawnWalkerAt cfg env s p = some (false, s')) :
    s'.walkers = s.walkers ∧ s'.walkersBlackList = s.walkersBlackList ∧
    (∀ w ∈ s'.created, w ∉ s.created → w ∈ s'.destroyed ∧ w ∉ s.destroyed) ∧
    (s'.created ≠ s.created →
      env.attachOk s.nextId = false ∧ s'.destroyed = s.nextId :: s.destroyed) := by
  rcases tryToSpawnWalkerAt_cases cfg env s p false s' h with
    ⟨-, rfl⟩ | ⟨-, rfl⟩ | ⟨-, hat, rfl⟩ | ⟨hb, -, -⟩
  · exact ⟨rfl, rfl, fun w hw hnw => absurd hw hnw, fun hc => absurd rfl hc⟩
  · exact ⟨rfl, rfl, fun w hw hnw => absurd hw hnw, fun hc => absurd rfl hc⟩
  · refine ⟨rfl, rfl, ?_, fun _ => ⟨hat, rfl⟩⟩
    intro w hw hnw
    rcases List.mem_cons.mp hw with rfl | hold
    · refine ⟨List.mem_cons_self _ _, fun hc => ?_⟩
      exact absurd (hI.ltD _ hc) (lt_irrefl _)
    · exact absurd hold hnw
  · exact absurd hb (by simp)

/-- Claim C5 witness: a concrete attempt in which controller attachment fails;
the fresh entity `0` is created and destroyed, and both sets are unchanged. -/
theorem claim5_witness :
    sAttachFailRes.walkers = (initialState cfgOne worldTwo).walkers ∧
    sAttachFailRes.walkersBlackList = (initialState cfgOne worldTwo).walkersBlackList ∧
    (∀ w ∈ sAttachFailRes.created, w ∉ (initialState cfgOne worldTwo).created →
      w ∈ sAttachFailRes.destroyed ∧ w ∉ (initialState cfgOne worldTwo).destroyed) ∧
    (sAttachFailRes.created ≠ (initialState cfgOne worldTwo).created →
      envAttachFail.attachOk (initialState cfgOne worldTwo).nextId = false ∧
      sAttachFailRes.destroyed =
        (initialState cfgOne worldTwo).nextId :: (initialState cfgOne worldTwo).destroyed) :=
  claim5_atomicFailure cfgOne envAttachFail (initialState cfgOne worldTwo) pA
    sAttachFailRes
    ⟨by decide, by decide, by decide, by decide, by decide, by decide, by decide,
      by decide, by decide, by decide⟩
    (by decide)

/-! Section: Claim C6 -/

/-- Claim C6: in the per-tick Active-Set check, when the selected walker's
controller resolves and reports stuck, exactly one destination-reassignment
draw is made (the stream position advances by exactly one), and the walker
moves from the Active Set to the Blacklist Set regardless of whether the
reassignment succeeded. -/
theorem claim6_stuckActive (cfg : Config) (env : WalkerEnv) (s : SpawnerState)
    (walker : Nat)
    (hw : s.walkers[(s.currentIndexToCheck + 1) % s.walkers.length]? = some walker)
    (hsp : 0 < s.spawnPoints.length)
    (hctrl : GetControllerOk env walker = true)
    (hstuck : env.stuck walker = true) :
    ∃ s', activePhase cfg env s = some (s', [Event.activeCheck walker]) ∧
      s'.streamPos = s.streamPos + 1 ∧
      walker ∈ s'.walkersBlackList ∧
      (s.walkers.Nodup → walker ∉ s'.walkers) := by
  obtain ⟨hlt, hwe⟩ := List.getElem?_eq_some.mp hw
  have hlen : 0 < s.walkers.length := Nat.lt_of_le_of_lt (Nat.zero_le _) hlt
  unfold activePhase
  rw [if_pos hlen, hw]
  dsimp only
  rw [if_neg (by simp [hctrl]), if_pos hstuck]
  obtain ⟨b, hts⟩ := trySetDestination_ctrlOk cfg env
    { s with currentIndexToCheck := s.currentIndexToCheck + 1 } walker hctrl hsp
  rw [hts]
  dsimp only
  refine ⟨_, rfl, rfl, by simp, ?_⟩
  intro hnd hc
  exact (hwe ▸ getElem_not_mem_removeAtSwap s.walkers _ hlt hnd) hc

/-- Claim C6 witness: in the two-walker startup state, walker `1` is selected,
reports stuck, one reassignment draw happens, and it moves to the black
list. -/
theorem claim6_witness :
    ∃ s', activePhase cfgTwo envStuckOne sTwoStart
        = some (s', [Event.activeCheck 1]) ∧
      s'.streamPos = sTwoStart.streamPos + 1 ∧
      1 ∈ s'.walkersBlackList ∧
      (sTwoStart.walkers.Nodup → 1 ∉ s'.walkers) :=
  claim6_stuckActive cfgTwo envStuckOne sTwoStart 1 (by decide) (by decide)
    (by decide) (by decide)

/-! Section: Claim C7 -/

/-- Claim C7: in the per-tick Blacklist-Set check on a non-empty black list,
the round-robin-selected walker is removed and `Destroy` is invoked on its
entity (whenever its handle is not already null) exactly when its controller
is unresolvable or it still reports stuck; otherwise it stays in the Blacklist
Set and the walker arrays, destroyed ledger and created ledger are
unchanged. -/
theorem claim7_blackListCheck (env : WalkerEnv) (s : SpawnerState) (walker : Nat)
    (hnd : s.walkersBlackList.Nodup)
    (hw : s.walkersBlackList[(s.currentIndexToCheck + 1) %
      s.walkersBlackList.length]? = some walker) :
    ∃ s', blackListPhase env s = some (s', [Event.blackListCheck walker]) ∧
      s'.walkers = s.walkers ∧
      ((GetControllerOk env walker = false ∨ env.stuck walker = true) →
        walker ∉ s'.walkersBlackList ∧
        (env.isNull walker = false → walker ∈ s'.destroyed)) ∧
      ((GetControllerOk env walker = true ∧ env.stuck walker = false) →
        s'.walkersBlackList = s.walkersBlackList ∧ s'.destroyed = s.destroyed ∧
        s'.created = s.created ∧ s'.streamPos = s.streamPos) := by
  obtain ⟨hlt, hwe⟩ := List.getElem?_eq_some.mp hw
  have hlen : 0 < s.walkersBlackList.length := Nat.lt_of_le_of_lt (Nat.zero_le _) hlt
  have hnotmem : walker ∉ removeAtSwap s.walkersBlackList
      ((s.currentIndexToCheck + 1) % s.walkersBlackList.length) :=
    hwe ▸ getElem_not_mem_removeAtSwap s.walkersBlackList _ hlt hnd
  unfold blackListPhase
  rw [if_pos hlen, hw]
  dsimp only
  by_cases hcond : (!(GetControllerOk env walker) || env.stuck walker) = true
  · rw [if_pos hcond]
    by_cases hnull : env.isNull walker = true
    · rw [if_neg (by simp [hnull])]
      refine ⟨_, rfl, rfl, ?_, ?_⟩
      · intro hrem
        exact ⟨hnotmem, fun hnf => absurd (hnf.symm.trans hnull) (by simp)⟩
      · intro hkeep
        exact absurd hcond (by simp [hkeep.1, hkeep.2])
    · rw [Bool.not_eq_true] at hnull
      rw [if_pos (by simp [hnull])]
      refine ⟨_, rfl, rfl, ?_, ?_⟩
      · intro hrem
        exact ⟨hnotmem, fun _ => List.mem_cons_self _ _⟩
      · intro hkeep
        exact absurd hcond (by simp [hkeep.1, hkeep.2])
  · rw [if_neg hcond]
    refine ⟨_, rfl, rfl, ?_, ?_⟩
    · intro hrem
      rcases hrem with hcf | hst
      · exact absurd hcond (by simp [hcf])
      · exact absurd hcond (by simp [hst])
    · intro hkeep
      exact ⟨rfl, rfl, rfl, rfl⟩

/-- Claim C7 witness: in the quarantined-walker state, walker `1` is selected
from the black list; under the nominal environment it has recovered, stays
black-listed, and nothing else changes. -/
theorem claim7_witness :
    ∃ s', blackListPhase envNominal sTwoStuck
        = some (s', [Event.blackListCheck 1]) ∧
      s'.walkers = sTwoStuck.walkers ∧
      ((GetControllerOk envNominal 1 = false ∨ envNominal.stuck 1 = true) →
        (1 : Nat) ∉ s'.walkersBlackList ∧
        (envNominal.isNull 1 = false → (1 : Nat) ∈ s'.destroyed)) ∧
      ((GetControllerOk envNominal 1 = true ∧ envNominal.stuck 1 = false) →
        s'.walkersBlackList = sTwoStuck.walkersBlackList ∧
        s'.destroyed = sTwoStuck.destroyed ∧
        s'.created = sTwoStuck.created ∧ s'.streamPos = sTwoStuck.streamPos) :=
  claim7_blackListCheck envNominal sTwoStuck 1 (by decide) (by decide)

/-! Section: Claim C8 -/

/-- Claim C8: on each tick, exactly one spawn attempt is made iff spawning is
enabled and the current walker count is strictly below the target; otherwise no
spawn attempt is made; and any spawn attempt of the tick is at the spawn point
drawn uniformly from the registry by the tick's first random draw. -/
theorem claim8_spawnGate (cfg : Config) (env : WalkerEnv) (s s' : SpawnerState)
    (tr : List Event) (h : Tick cfg env s = some (s', tr)) :
    spawnAttemptCount tr =
      (if s.bSpawnWalkers = true ∧ (GetCurrentNumberOfWalkers s : Int) < s.numberOfWalkers
        then 1 else 0) ∧
    (∀ p, Event.spawnAttempt p ∈ tr →
      s.spawnPoints[RandRange cfg s.streamPos s.spawnPoints.length]? = some p) := by
  obtain ⟨s1, e1, s2, e2, e3, h1, h2, h3, rfl⟩ := tick_decompose cfg env s s' tr h
  have c2 := spawnAttemptCount_blackListPhase env s1 s2 e2 h2
  have c3 := spawnAttemptCount_activePhase cfg env s2 s' e3 h3
  have m2 : ∀ p, Event.spawnAttempt p ∉ e2 := by
    rcases blackListPhase_cases env s1 s2 e2 h2 with ⟨-, -, rfl⟩ | ⟨-, w2, -, rfl, -⟩
    · intro p hp
      exact absurd hp (List.not_mem_nil _)
    · intro p hp
      exact absurd (List.mem_singleton.mp hp) (by simp)
  have m3 : ∀ p, Event.spawnAttempt p ∉ e3 := by
    rcases activePhase_cases cfg env s2 s' e3 h3 with ⟨-, -, rfl⟩ | ⟨-, w3, -, rfl, -⟩
    · intro p hp
      exact absurd hp (List.not_mem_nil _)
    · intro p hp
      exact absurd (List.mem_singleton.mp hp) (by simp)
  rcases spawnPhase_cases cfg env s s1 e1 h1 with ⟨hcond, -, rfl⟩ |
    ⟨hcond, p0, sp1, b, hg, -, rfl⟩
  · constructor
    · unfold spawnAttemptCount at c2 c3 ⊢
      rw [List.countP_append, List.countP_append, c2, c3, if_neg hcond]
      rfl
    · intro p hp
      rcases List.mem_append.mp hp with hp1 | hp3
      · rcases List.mem_append.mp hp1 with hp1 | hp2
        · exact absurd hp1 (List.not_mem_nil _)
        · exact absurd hp2 (m2 p)
      · exact absurd hp3 (m3 p)
  · obtain ⟨-, hreg⟩ := getRandomSpawnPoint_some cfg s p0 sp1 hg
    constructor
    · unfold spawnAttemptCount at c2 c3 ⊢
      rw [List.countP_append, List.countP_append, c2, c3, if_pos hcond]
      rfl
    · intro p hp
      rcases List.mem_append.mp hp with hp1 | hp3
      · rcases List.mem_append.mp hp1 with hp1 | hp2
        · have heq := List.mem_singleton.mp hp1
          simp only [Event.spawnAttempt.injEq] at heq
          exact heq ▸ hreg
        · exact absurd hp2 (m2 p)
      · exact absurd hp3 (m3 p)

/-- Claim C8 witness: a tick of the one-walker state at its target population
performs no spawn attempt. -/
theorem claim8_witness :
    spawnAttemptCount [Event.activeCheck 0] =
      (if sOne.bSpawnWalkers = true ∧
          (GetCurrentNumberOfWalkers sOne : Int) < sOne.numberOfWalkers
        then 1 else 0) ∧
    (∀ p, Event.spawnAttempt p ∈ [Event.activeCheck 0] →
      sOne.spawnPoints[RandRange cfgOne sOne.streamPos sOne.spawnPoints.length]?
        = some p) :=
  claim8_spawnGate cfgOne envNominal sOne sOneTicked [Event.activeCheck 0]
    (by decide)

/-! Section: Claim C9 -/

/-- Claim C9: every call to the destination selector makes exactly one random
draw from the spawn-point registry (the stream position advances by exactly
one), and it returns the drawn point's location as a valid destination iff the
distance from the origin to the drawn point is at least the configured minimum
walk distance. -/
theorem claim9_destinationSelector (cfg : Config) (s : SpawnerState)
    (origin : FVector) (hsp : 0 < s.spawnPoints.length) :
    ∃ p b, s.spawnPoints[RandRange cfg s.streamPos s.spawnPoints.length]? = some p ∧
      TryGetValidDestination cfg s origin =
        some (b, p.location, { s with streamPos := s.streamPos + 1 }) ∧
      (b = true ↔ cfg.minimumWalkDistance ≤ GetDistance cfg origin p.location) := by
  have hev := tryGetValidDestination_isSome cfg s origin hsp
  rcases hg : TryGetValidDestination cfg s origin with _ | ⟨b, d, s1⟩
  · rw [hg] at hev
    simp at hev
  · obtain ⟨hs1, p, hreg, hd, hb⟩ := tryGetValidDestination_some cfg s origin b d s1 hg
    subst hs1
    exact ⟨p, b, hreg, by rw [← hd], hb⟩

/-- Claim C9 witness: one selector call from the origin on the two-point
registry draws `pA` and accepts it. -/
theorem claim9_witness :
    ∃ p b, (initialState cfgOne worldTwo).spawnPoints[RandRange cfgOne
        (initialState cfgOne worldTwo).streamPos
        (initialState cfgOne worldTwo).spawnPoints.length]? = some p ∧
      TryGetValidDestination cfgOne (initialState cfgOne worldTwo) vB =
        some (b, p.location,
          { initialState cfgOne worldTwo with
              streamPos := (initialState cfgOne worldTwo).streamPos + 1 }) ∧
      (b = true ↔ cfgOne.minimumWalkDistance ≤
        GetDistance cfgOne vB p.location) :=
  claim9_destinationSelector cfgOne (initialState cfgOne worldTwo) vB (by decide)

/-! Section: Claim C10 -/

/-- Claim C10 counterexample: after a startup that discovers no ongoing spawn
point, a `SetNumberOfWalkers 1` call re-enables spawning and the next tick hits
the registry assertion (`check(SpawnPoints.Num() > 0)`) — the embedding's error
branch is reachable, so as stated the claim is false. -/
theorem claim10_counterexample :
    BeginPlay baseCfg envNominal [] = some (initialState baseCfg []) ∧
    run baseCfg (initialState baseCfg [])
      [Op.opSetNumberOfWalkers 1, Op.opTick envNominal] = none :=
  ⟨by decide, by decide⟩

/-- Claim C10 (amended): whenever the spawn-point registry is non-empty, a tick
never takes the embedding's error branch — every round-robin index, being a
cursor value reduced modulo the (positive) set size, is in bounds for the
Active Set, the Blacklist Set and the registry, so `Tick` always returns a
state.  (The unamended claim fails only for an empty registry: a zero-point
startup followed by `SetNumberOfWalkers` with a positive count makes the next
tick hit the registry assertion.) -/
theorem claim10_amended (cfg : Config) (env : WalkerEnv) (s : SpawnerState)
    (hsp : 0 < s.spawnPoints.length) : (Tick cfg env s).isSome = true :=
  tick_isSome cfg env s hsp

/-- Claim C10 witness: the amended theorem applied to the one-walker state over
the two-point registry. -/
theorem claim10_witness : (Tick cfgOne envNominal sOne).isSome = true :=
  claim10_amended cfgOne envNominal sOne (by decide)

end Carla
